import Mathlib

set_option maxRecDepth 8192

/- Verification of the report execution engine: a shallow embedding of the
   time-range calculator, query builder, delivery channels, orchestrator and
   queue worker, with theorems about the documented behaviour.

   Modelling conventions:
   * naive datetimes are seconds since 1970-01-01 00:00:00 (`Nat`); the target
     store keeps timezone-naive timestamps, and every in-repo caller passes a
     naive `now_jakarta()` value, for which the pytz localize-then-strip step
     in `calculate_time_range` is the identity on the wall clock, so the
     normalisation block is modelled as the identity;
   * Python dicts that are iterated over (`time_range`, template variables)
     are association lists in insertion order, matching dict semantics;
   * fallible Python code is modelled with explicit outcome types, including
     the NameError raised when an except-handler reads an unbound local. -/

/-- A single-quote character as a string (used when building SQL text). -/
def sqt : String := String.singleton (Char.ofNat 39)

/-- Python whitespace characters (space, tab, newline, CR, VT, FF). -/
def isPySpace (c : Char) : Bool :=
  c == Char.ofNat 32 || c == Char.ofNat 9 || c == Char.ofNat 10 ||
  c == Char.ofNat 13 || c == Char.ofNat 11 || c == Char.ofNat 12

/-- Python str.rstrip(): remove trailing whitespace. -/
def pyRstrip (s : String) : String :=
  String.mk ((s.toList.reverse.dropWhile isPySpace).reverse)

/-- Index (in characters) of the first occurrence of pat in s, Python
str.find semantics (None instead of -1). -/
def strFindAux (pat : List Char) : List Char → Nat → Option Nat
  | [], i => if pat.isEmpty then some i else none
  | c :: rest, i =>
    if pat.isPrefixOf (c :: rest) then some i
    else strFindAux pat rest (i + 1)

/-- Python str.find on strings, as an Option char index. -/
def strFind (s pat : String) : Option Nat :=
  strFindAux pat.toList s.toList 0

/-- Python `pat in s` substring test. -/
def strContains (s pat : String) : Bool :=
  (strFind s pat).isSome

/-- Python s[:n] (character based). -/
def strTake (s : String) (n : Nat) : String :=
  String.mk (s.toList.take n)

/-- Python s[n:] (character based). -/
def strDrop (s : String) (n : Nat) : String :=
  String.mk (s.toList.drop n)

/-- Python str.upper (ASCII, as in the queries handled here). -/
def pyUpper (s : String) : String :=
  String.mk (s.toList.map Char.toUpper)

/-- Python str.lower (ASCII). -/
def pyLower (s : String) : String :=
  String.mk (s.toList.map Char.toLower)

/-- Python str.startswith. -/
def pyStartsWith (s pre : String) : Bool :=
  pre.toList.isPrefixOf s.toList

/-- Python str.endswith. -/
def pyEndsWith (s suf : String) : Bool :=
  suf.toList.reverse.isPrefixOf s.toList.reverse

/-- Splitting into runs: helper shared by the split functions. -/
def splitCharAux (isSep : Char → Bool) : List Char → List Char → List (List Char)
  | [], cur => [cur.reverse]
  | c :: rest, cur =>
    if isSep c then cur.reverse :: splitCharAux isSep rest []
    else splitCharAux isSep rest (c :: cur)

/-- Python str.split(sep) for a one-character separator. -/
def splitOnChar (s : String) (sep : Char) : List String :=
  (splitCharAux (fun c => c == sep) s.toList []).map String.mk

/-- Python int(s) on a digit string, None on anything else. -/
def digitsVal : List Char → Nat → Option Nat
  | [], acc => some acc
  | c :: rest, acc =>
    if c.isDigit then digitsVal rest (acc * 10 + (c.toNat - 48)) else none

/-- Python int(s) for cron fields: digits only. -/
def parseNatStr (s : String) : Option Nat :=
  match s.toList with
  | [] => none
  | l => digitsVal l 0

/-- Python str.replace(pat, repl) (all occurrences, left to right; pat is
never empty where this is used). -/
def replaceAux (pat repl : List Char) : Nat → List Char → List Char
  | 0, s => s
  | _ + 1, [] => []
  | fuel + 1, c :: rest =>
    if pat.isPrefixOf (c :: rest) then
      repl ++ replaceAux pat repl fuel (rest.drop (pat.length - 1))
    else c :: replaceAux pat repl fuel rest

/-- Python str.replace on strings. -/
def pyReplace (s pat repl : String) : String :=
  String.mk (replaceAux pat.toList repl.toList s.toList.length s.toList)

/-- Python str.split() with no argument: split on whitespace runs, dropping
empty pieces. -/
def pySplitWs (s : String) : List String :=
  ((splitCharAux isPySpace s.toList []).map String.mk).filter (fun p => p ≠ "")


/-- Zero-padded two-digit rendering (strftime field). -/
def pad2 (n : Nat) : String :=
  if n < 10 then "0" ++ toString n else toString n

/-- Civil (year, month, day) from days since 1970-01-01, proleptic Gregorian
calendar (standard days-from-civil inverse). -/
def civilFromDays (z : Nat) : Nat × Nat × Nat :=
  let z' := z + 719468
  let era := z' / 146097
  let doe := z' % 146097
  let yoe := (doe - doe / 1460 + doe / 36524 - doe / 146096) / 365
  let y := yoe + era * 400
  let doy := doe - (365 * yoe + yoe / 4 - yoe / 100)
  let mp := (5 * doy + 2) / 153
  let d := doy - (153 * mp + 2) / 5 + 1
  let m := if mp < 10 then mp + 3 else mp - 9
  (if m ≤ 2 then y + 1 else y, m, d)

/-- Seconds in one day. -/
def secsPerDay : Nat := 86400

/-- strftime Y-m-d of a naive timestamp. -/
def fmtDate (t : Nat) : String :=
  let c := civilFromDays (t / secsPerDay)
  toString c.1 ++ "-" ++ pad2 c.2.1 ++ "-" ++ pad2 c.2.2

/-- strftime H:M:S of a naive timestamp. -/
def fmtTime (t : Nat) : String :=
  let s := t % secsPerDay
  pad2 (s / 3600) ++ ":" ++ pad2 (s % 3600 / 60) ++ ":" ++ pad2 (s % 60)

/-- strftime "Y-m-d H:M:S" of a naive timestamp. -/
def fmtDateTime (t : Nat) : String :=
  fmtDate t ++ " " ++ fmtTime t

/-- strftime H (hour, zero padded) of a naive timestamp. -/
def fmtHour (t : Nat) : String :=
  pad2 (t % secsPerDay / 3600)

/-- strftime "Ymd_HMS" used for default report file names. -/
def fmtTimestamp (t : Nat) : String :=
  let c := civilFromDays (t / secsPerDay)
  let s := t % secsPerDay
  toString c.1 ++ pad2 c.2.1 ++ pad2 c.2.2 ++ "_" ++
    pad2 (s / 3600) ++ pad2 (s % 3600 / 60) ++ pad2 (s % 60)

/-- Rendering of Python round(num/den, 2) as a decimal string, on exact
rationals (the code uses binary floats; no claim depends on the rounding, so
half-up rational rounding stands in for float round-half-even and repr). -/
def fmtRound2 (num den : Nat) : String :=
  let c := (num * 100 + den / 2) / den
  let ip := c / 100
  let fr := c % 100
  if fr = 0 then toString ip ++ ".0"
  else if fr % 10 = 0 then toString ip ++ "." ++ toString (fr / 10)
  else toString ip ++ "." ++ pad2 fr

/-- One field of a five-field cron expression (supported syntax: star, star-slash
step, comma list of numbers). -/
inductive CronField where
  | star : CronField
  | every (n : Nat) : CronField
  | nums (ns : List Nat) : CronField
deriving DecidableEq

/-- Parse one cron field; unsupported syntax is a parse failure. -/
def parseCronField (s : String) : Option CronField :=
  if s = "*" then some .star
  else if pyStartsWith s "*/" then
    match parseNatStr (strDrop s 2) with
    | some n => if n = 0 then none else some (.every n)
    | none => none
  else
    match (splitOnChar s (Char.ofNat 44)).mapM parseNatStr with
    | some ns => if ns = [] then none else some (.nums ns)
    | none => none

/-- A parsed five-field cron expression. -/
structure Cron where
  minute : CronField
  hour : CronField
  day : CronField
  month : CronField
  weekday : CronField
deriving DecidableEq

/-- Modelled from the spec: the external cron library (croniter) used by the
time-range calculator is not part of this repository; parsing accepts a
five-field expression whose fields are numbers, lists, star or star-slash
steps, and anything else raises (the caller catches any exception). -/
def parseCron (s : String) : Option Cron :=
  match pySplitWs s with
  | [mi, h, d, mo, w] =>
    match parseCronField mi, parseCronField h, parseCronField d,
          parseCronField mo, parseCronField w with
    | some a, some b, some c, some d', some e => some ⟨a, b, c, d', e⟩
    | _, _, _, _, _ => none
  | _ => none

/-- Does a value match one cron field. -/
def matchField (f : CronField) (v : Nat) : Bool :=
  match f with
  | .star => true
  | .every n => v % n == 0
  | .nums ns => ns.contains v

/-- Day-of-week matching (cron 0 and 7 are both Sunday). -/
def matchFieldDow (f : CronField) (v : Nat) : Bool :=
  match f with
  | .star => true
  | .every n => v % n == 0
  | .nums ns => ns.any (fun n => n % 7 == v)

/-- A cron field restricts matching unless it is star. -/
def cronRestricted (f : CronField) : Bool :=
  f != .star

/-- Modelled from the spec: croniter match of a minute-aligned instant
(m minutes since epoch) against a cron expression, with the standard
day-of-month or day-of-week rule when both are restricted. -/
def cronMatchesMinute (c : Cron) (m : Nat) : Bool :=
  let days := m / 1440
  let civ := civilFromDays days
  let dow := (days + 4) % 7
  let dayOk := matchField c.day civ.2.2
  let dowOk := matchFieldDow c.weekday dow
  let dayDow :=
    if cronRestricted c.day && cronRestricted c.weekday then dayOk || dowOk
    else dayOk && dowOk
  matchField c.minute (m % 60) && matchField c.hour (m / 60 % 24) &&
    matchField c.month civ.2.1 && dayDow

/-- Bounded backwards search horizon in minutes (about two years, standing in
for croniter giving up on never-matching expressions). -/
def cronSearchFuel : Nat := 1100000

/-- Backwards minute-by-minute search for the latest matching minute at or
below m. -/
def cronPrevAux (c : Cron) : Nat → Nat → Option Nat
  | 0, _ => none
  | fuel + 1, m =>
    if cronMatchesMinute c m then some (m * 60)
    else if m = 0 then none
    else cronPrevAux c fuel (m - 1)

/-- Modelled from the spec: croniter get_prev — the most recent scheduled
occurrence strictly before t. -/
def cronPrev (c : Cron) (t : Nat) : Option Nat :=
  if t = 0 then none else cronPrevAux c cronSearchFuel ((t - 1) / 60)

/-- Row of report_schedules (fields the engine reads; timestamps naive). -/
structure ReportSchedule where
  id : Nat
  configId : Nat := 0
  cronExpression : Option String := none
  timezone : Option String := none
  isActive : Bool := true
  lastRunAt : Option Nat := none
  nextRunAt : Option Nat := none
deriving DecidableEq

/-- The window start, end and calculation method chosen by
calculate_time_range (source lines 46-69; the timezone block above them is
the identity on naive timestamps, see the module comment). -/
def computeWindow (schedule : Option ReportSchedule) (executionTime : Nat) :
    Nat × Nat × String :=
  match schedule with
  | some s =>
    match s.lastRunAt with
    | some lr => (lr, executionTime, "last_run_at")
    | none =>
      match s.cronExpression with
      | some expr =>
        if expr = "" then (executionTime - secsPerDay, executionTime, "default_daily")
        else
          match parseCron expr with
          | some c =>
            match cronPrev c executionTime with
            | some e1 =>
              match cronPrev c e1 with
              | some s1 => (s1, e1, "cron_detection")
              | none => (executionTime - secsPerDay, executionTime, "default_daily")
            | none => (executionTime - secsPerDay, executionTime, "default_daily")
          | none => (executionTime - secsPerDay, executionTime, "default_daily")
      | none => (executionTime - secsPerDay, executionTime, "default_daily")
  | none => (executionTime - secsPerDay, executionTime, "default_daily")

/-- calculate_time_range: the returned mapping of named time strings, in the
source's key order (interval fields are Python floats rendered by
fmtRound2). -/
def calculate_time_range (schedule : Option ReportSchedule) (executionTime : Nat) :
    List (String × String) :=
  let w := computeWindow schedule executionTime
  let start := w.1
  let endT := w.2.1
  let method := w.2.2
  let intervalSeconds := endT - start
  [("start_datetime", fmtDateTime start),
   ("end_datetime", fmtDateTime endT),
   ("start_date", fmtDate start),
   ("end_date", fmtDate endT),
   ("start_time", fmtTime start),
   ("end_time", fmtTime endT),
   ("interval_hours", fmtRound2 intervalSeconds 3600),
   ("interval_minutes", fmtRound2 intervalSeconds 60),
   ("calculation_method", method),
   ("yesterday", fmtDate (endT - secsPerDay)),
   ("last_week", fmtDate (endT - 7 * secsPerDay)),
   ("last_month", fmtDate (endT - 30 * secsPerDay)),
   ("execution_time", fmtDateTime endT),
   ("execution_date", fmtDate endT),
   ("execution_hour", fmtHour endT)]

/-- replace_template_variables: replace every "{{key}}" by its value, one
mapping entry at a time in insertion order (str.replace replaces all
occurrences). -/
def replace_template_variables (query : String) (timeRange : List (String × String)) :
    String :=
  timeRange.foldl
    (fun acc kv => pyReplace acc ("\x7b\x7b" ++ kv.1 ++ "\x7d\x7d") kv.2) query

/-- Rendering of a Python value as str(value) renders it (f-string field). -/
def pyStrOpt : Option String → String
  | some s => s
  | none => "None"

/-- Dynamic filter values: JSON configuration is loosely typed (string,
number or list). -/
inductive PyVal where
  | str (s : String) : PyVal
  | intv (n : Int) : PyVal
  | listv (vs : List PyVal) : PyVal

mutual

/-- Python str(value). -/
def pyStr : PyVal → String
  | .str s => s
  | .intv n => toString n
  | .listv vs => "[" ++ String.intercalate ", " (pyReprList vs) ++ "]"

/-- Python repr(value), used for elements when a list is stringified. -/
def pyRepr : PyVal → String
  | .str s => sqt ++ s ++ sqt
  | .intv n => toString n
  | .listv vs => "[" ++ String.intercalate ", " (pyReprList vs) ++ "]"

/-- repr of each element of a list. -/
def pyReprList : List PyVal → List String
  | [] => []
  | v :: vs => pyRepr v :: pyReprList vs

end

/-- One entry of config.parameters.filters (a loosely-typed dict; dtype is
the dict's type key). -/
structure ReportFilter where
  field : Option String := none
  operator : Option String := none
  dtype : Option String := none
  value : Option PyVal := none

/-- The date-ish field-name patterns skipped by the static-filter pass. -/
def datePatterns : List String :=
  ["DATE(", "TIMESTAMP(", "created_at", "updated_at", "deleted_at",
   "date_", "_date", "datetime", "time_"]

/-- is_date_filter: a filter is a date filter when its type is date or its
field name contains one of the date patterns (case-insensitive). -/
def is_date_filter (f : ReportFilter) : Bool :=
  let dataType := f.dtype.getD "string"
  let field := f.field.getD ""
  if dataType == "date" then true
  else
    let fieldLower := pyLower field
    datePatterns.any (fun p => strContains fieldLower (pyLower p))

/-- The condition contributed by one filter in apply_filters_to_query
(none when the filter is skipped): date filters and null values are skipped,
string values get template substitution when template_vars is non-empty
(Python truthiness of the dict), comparison operators quote non-number
values, LIKE wraps in percent signs, IN renders a quoted list, and unknown
operators fall back to quoted equality. -/
def conditionOf (templateVars : List (String × String)) (f : ReportFilter) :
    Option String :=
  if is_date_filter f then none
  else
    match f.value with
    | none => none
    | some value0 =>
      let value :=
        match value0 with
        | .str s =>
          if templateVars.isEmpty then PyVal.str s
          else PyVal.str (replace_template_variables s templateVars)
        | v => v
      let field := pyStrOpt f.field
      let operator := f.operator.getD "="
      let dataType := f.dtype.getD "string"
      if ["=", "!=", ">", ">=", "<", "<="].contains operator then
        if dataType == "number" then
          some (field ++ " " ++ operator ++ " " ++ pyStr value)
        else
          some (field ++ " " ++ operator ++ " " ++ sqt ++ pyStr value ++ sqt)
      else if operator == "LIKE" then
        some (field ++ " LIKE " ++ sqt ++ "%" ++ pyStr value ++ "%" ++ sqt)
      else if operator == "IN" then
        match value with
        | .listv vs =>
          some (field ++ " IN (" ++
            String.intercalate ", " (vs.map (fun v => sqt ++ pyRepr v ++ sqt)) ++ ")")
        | _ => some (field ++ " = " ++ sqt ++ pyStr value ++ sqt)
      else some (field ++ " = " ++ sqt ++ pyStr value ++ sqt)

/-- The trailing-clause keywords before which filters are inserted. -/
def insertionKeywords : List String := ["ORDER BY", "LIMIT", "GROUP BY", "HAVING"]

/-- One step of the insertion point scan (keep the earlier of the running
position and this keyword's first occurrence, ignoring missing keywords). -/
def insStep (queryUpper : String) (acc : Nat) (kw : String) : Nat :=
  match strFind queryUpper kw with
  | some pos => if pos < acc then pos else acc
  | none => acc

/-- The insertion point scan: earliest keyword occurrence in the upper-cased
query, defaulting to the end of the query. -/
def insertionPosIn (queryUpper : String) (dflt : Nat) : Nat :=
  insertionKeywords.foldl (insStep queryUpper) dflt

/-- apply_filters_to_query: collect the surviving filter conditions, return
the query unchanged when none survive, otherwise splice them in (AND when the
query already contains WHERE, a new WHERE otherwise) before the earliest
trailing keyword. -/
def apply_filters_to_query (baseQuery : String) (filters : List ReportFilter)
    (templateVars : List (String × String)) : String :=
  let whereConditions := filters.filterMap (conditionOf templateVars)
  if whereConditions.isEmpty then baseQuery
  else
    let queryUpper := pyUpper baseQuery
    let hasWhere := strContains queryUpper "WHERE"
    let insertionPos := insertionPosIn queryUpper baseQuery.length
    let filterClause :=
      if hasWhere then "AND " ++ String.intercalate " AND " whereConditions
      else "WHERE " ++ String.intercalate " AND " whereConditions
    pyRstrip (strTake baseQuery insertionPos) ++ "\n" ++ filterClause ++ "\n" ++
      strDrop baseQuery insertionPos

/-- The cron-granularity detection inside build_auto_date_filter: daily by
default, and from the first five whitespace-split cron fields otherwise. -/
def cronGranularity (cronExpression : Option String) : String :=
  match cronExpression with
  | none => "daily"
  | some expr =>
    if expr = "" then "daily"
    else
      match pySplitWs expr with
      | minute :: hour :: day :: month :: weekday :: _ =>
        if minute != "*" && hour == "*" then "hourly"
        else if pyStartsWith minute "*/" then "sub_hourly"
        else if weekday != "*" then "weekly"
        else if day == "1" && month == "*" then "monthly"
        else "daily"
      | _ => "daily"

/-- build_auto_date_filter: empty for an empty date field, otherwise a
condition shaped by the detected granularity (dict.get misses render as
None, as in the f-strings). -/
def build_auto_date_filter (dateField : String)
    (timeRange : List (String × String)) (cronExpression : Option String) :
    String :=
  if dateField = "" then ""
  else
    let granularity := cronGranularity cronExpression
    if granularity == "daily" then
      "DATE(" ++ dateField ++ ") = " ++ sqt ++
        pyStrOpt (timeRange.lookup "yesterday") ++ sqt
    else if granularity == "hourly" || granularity == "sub_hourly" then
      dateField ++ " BETWEEN " ++ sqt ++
        pyStrOpt (timeRange.lookup "start_datetime") ++ sqt ++ " AND " ++ sqt ++
        pyStrOpt (timeRange.lookup "end_datetime") ++ sqt
    else if granularity == "weekly" || granularity == "monthly" then
      "DATE(" ++ dateField ++ ") BETWEEN " ++ sqt ++
        pyStrOpt (timeRange.lookup "start_date") ++ sqt ++ " AND " ++ sqt ++
        pyStrOpt (timeRange.lookup "end_date") ++ sqt
    else
      "DATE(" ++ dateField ++ ") = " ++ sqt ++
        pyStrOpt (timeRange.lookup "yesterday") ++ sqt

/-- Insert/overwrite one key in a dict modelled as an assoc list (Python dict
assignment keeps the original insertion position of an existing key). -/
def dictInsert (d : List (String × String)) (k v : String) :
    List (String × String) :=
  if d.any (fun kv => kv.1 == k) then
    d.map (fun kv => if kv.1 == k then (k, v) else kv)
  else d ++ [(k, v)]

/-- Python dict.update. -/
def dictUpdate (d kvs : List (String × String)) : List (String × String) :=
  kvs.foldl (fun acc kv => dictInsert acc kv.1 kv.2) d

/-- Python `opt or dflt` on an optional integer column (None and 0 are both
falsy). -/
def pyOrNat (o : Option Nat) (dflt : Nat) : Nat :=
  match o with
  | some n => if n = 0 then dflt else n
  | none => dflt

/-- Python truthiness of an optional string (None and the empty string are
falsy). -/
def pyTruthyOptStr : Option String → Bool
  | some s => s ≠ ""
  | none => false

/-- First attempt number in 1..maxAttempts on which f succeeds (the deliverer
retry loops: for attempt in range(1, max_retry + 1)). -/
def firstSuccessAux (f : Nat → Bool) : Nat → Nat → Option Nat
  | 0, _ => none
  | fuel + 1, attempt =>
    if f attempt then some attempt else firstSuccessAux f fuel (attempt + 1)

/-- First successful attempt of a bounded retry loop, if any. -/
def firstSuccess (f : Nat → Bool) (maxAttempts : Nat) : Option Nat :=
  firstSuccessAux f maxAttempts 1

/-- The config.parameters blob (named optional fields of the JSON dict). -/
structure ReportParams where
  dateField : Option String := none
  filters : List ReportFilter := []
  filenameTemplate : Option String := none
  displayColumns : Option (List String) := none

/-- Row of report_configs (fields the engine reads). -/
structure ReportConfig where
  id : Nat
  reportName : String := ""
  reportQuery : String := ""
  outputFormat : String := "csv"
  datasourceId : Nat := 0
  parameters : Option ReportParams := none
  timeoutSeconds : Option Nat := none
  isActive : Bool := true

/-- Row of report_datasources. -/
structure ReportDatasource where
  id : Nat
  name : String := ""
  dbType : String := "mysql"
  isActive : Bool := true
deriving DecidableEq

/-- The delivery_config JSON blob (mail and file-transfer keys). -/
structure DeliveryConfig where
  subject : Option String := none
  body : Option String := none
  host : Option String := none
  port : Option Nat := none
  username : Option String := none
  password : Option String := none
  remotePath : Option String := none
  createDirectory : Bool := false
  timeout : Option Nat := none
deriving DecidableEq

/-- Row of report_deliveries. -/
structure ReportDelivery where
  id : Nat
  configId : Nat := 0
  method : String := "email"
  deliveryConfig : Option DeliveryConfig := none
  maxRetry : Option Nat := none
  retryIntervalMinutes : Option Nat := none
  isActive : Bool := true
deriving DecidableEq

/-- Row of report_delivery_recipients (mail channel only). -/
structure ReportDeliveryRecipient where
  id : Nat := 0
  deliveryId : Nat := 0
  recipientValue : String := ""
  isActive : Bool := true
deriving DecidableEq

/-- Row of report_executions (the execution state record; the
execution_context JSON is modelled by its two query fields). -/
structure ReportExecution where
  id : String
  configId : Nat := 0
  scheduleId : Option Nat := none
  status : String := "running"
  startedAt : Option Nat := none
  completedAt : Option Nat := none
  executedBy : String := "system"
  errorMessage : Option String := none
  queryTimeMs : Option Nat := none
  rowsReturned : Option Nat := none
  filePath : Option String := none
  fileSizeBytes : Option Nat := none
  ctxOriginalQuery : Option String := none
  ctxFinalQuery : Option String := none
deriving DecidableEq

/-- Row of report_delivery_logs (delivery_details JSON omitted: no claim
reads it). -/
structure ReportDeliveryLog where
  id : Nat
  configId : Nat := 0
  deliveryId : Nat := 0
  scheduleId : Option Nat := none
  executionId : String := ""
  status : String := "pending"
  sentAt : Option Nat := none
  completedAt : Option Nat := none
  recipientCount : Nat := 0
  successCount : Nat := 0
  failureCount : Nat := 0
  retryCount : Nat := 0
  errorMessage : Option String := none
  fileSizeBytes : Option Nat := none
  processingTimeMs : Option Nat := none
deriving DecidableEq

/-- The persisted state the engine touches, one transactional session. -/
structure Db where
  executions : List ReportExecution := []
  configs : List ReportConfig := []
  datasources : List ReportDatasource := []
  schedules : List ReportSchedule := []
  deliveries : List ReportDelivery := []
  recipients : List ReportDeliveryRecipient := []
  deliveryLogs : List ReportDeliveryLog := []
  nextLogId : Nat := 1

/-- External collaborators of one execution, fixed for the run: the clock
(now_jakarta, constant within the run: no claim depends on elapsed time),
uuid generation, the query adapter, the file renderer, and per-delivery
per-attempt transfer outcomes. Modelled from the spec: these adapters are
outside the core (section 6 of the spec). -/
structure Env where
  now : Nat := 0
  freshId : String := "generated-id"
  queryResult : Except String Nat := .ok 0
  renderResult : Except String Unit := .ok ()
  fileSize : Nat := 0
  mailSendOk : Nat → Nat → Bool := fun _ _ => true
  sftpUploadOk : Nat → Nat → Bool := fun _ _ => true

/-- Outcome of one deliverer call: the returned log id, or an exception that
escaped the deliverer (Python semantics, including NameError from an
except-handler touching an unbound local). -/
inductive DeliverOutcome where
  | ok (logId : Nat) : DeliverOutcome
  | raised (err : String) : DeliverOutcome
deriving DecidableEq

/-- The NameError text raised when the failure handlers read send_start
before the retry loop ever bound it. -/
def nameErrorSendStart : String :=
  "NameError: name " ++ sqt ++ "send_start" ++ sqt ++ " is not defined"

/-- deliver_via_email: create a pending log row, resolve recipients, retry
the send up to max_retry times, and record the outcome on the same row.
A failure before the retry loop (e.g. no active recipients) reaches the
except handler with send_start unbound, so the handler itself raises
NameError and the row stays pending. -/
def deliver_via_email (env : Env) (db : Db) (delivery : ReportDelivery)
    (_filePath : String) (executionId : String) (config : ReportConfig)
    (timeRange : List (String × String)) (scheduleId : Option Nat) :
    Db × DeliverOutcome :=
  let logId := db.nextLogId
  let log0 : ReportDeliveryLog :=
    { id := logId, configId := config.id, deliveryId := delivery.id,
      scheduleId := scheduleId, executionId := executionId,
      status := "pending", sentAt := some env.now }
  let db1 : Db :=
    { db with deliveryLogs := db.deliveryLogs ++ [log0], nextLogId := logId + 1 }
  let recipients :=
    db.recipients.filter (fun r => r.deliveryId == delivery.id && r.isActive)
  if recipients.isEmpty then
    (db1, .raised nameErrorSendStart)
  else
    let emailAddresses := recipients.map (fun r => r.recipientValue)
    let emailConfig := delivery.deliveryConfig.getD {}
    let subjectTemplate := emailConfig.subject.getD ("Report: " ++ config.reportName)
    let bodyTemplate :=
      emailConfig.body.getD ("Please find attached report: " ++ config.reportName)
    let _subject := replace_template_variables subjectTemplate timeRange
    let _body := replace_template_variables bodyTemplate timeRange
    let maxRetry := pyOrNat delivery.maxRetry 3
    let _retryInterval := pyOrNat delivery.retryIntervalMinutes 5
    match firstSuccess (env.mailSendOk delivery.id) maxRetry with
    | some attempt =>
      let log1 :=
        { log0 with
            status := "success", completedAt := some env.now,
            recipientCount := emailAddresses.length,
            successCount := emailAddresses.length, failureCount := 0,
            retryCount := attempt - 1, fileSizeBytes := some env.fileSize,
            processingTimeMs := some 0 }
      ({ db1 with deliveryLogs := db.deliveryLogs ++ [log1] }, .ok logId)
    | none =>
      let log1 :=
        { log0 with
            status := "failed", completedAt := some env.now,
            recipientCount := emailAddresses.length, successCount := 0,
            failureCount := emailAddresses.length, retryCount := maxRetry,
            errorMessage := some "mailgun send failed",
            processingTimeMs := some 0 }
      ({ db1 with deliveryLogs := db.deliveryLogs ++ [log1] }, .ok logId)

/-- os.path.splitext extension of a path, without the leading dot. -/
def fileExtOf (p : String) : String :=
  let parts := splitOnChar p (Char.ofNat 46)
  if parts.length ≤ 1 then "" else (parts.getLast?).getD ""

/-- strftime HMS without separators. -/
def fmtHMSCompact (t : Nat) : String :=
  let s := t % secsPerDay
  pad2 (s / 3600) ++ pad2 (s % 3600 / 60) ++ pad2 (s % 60)

/-- build_remote_filename: substitute template variables into the configured
pattern and append the local file extension when missing (the pattern's
single-brace placeholders are not the double-brace ones the substitution
engine replaces; modelled as in the source). -/
def build_remote_filename (filenamePattern : String) (config : ReportConfig)
    (timeRange : List (String × String)) (executionId : String)
    (localFilePath : String) (now : Nat) : String :=
  let ext := fileExtOf localFilePath
  let templateVars :=
    dictUpdate
      [("report_name", pyReplace config.reportName " " "_"),
       ("date", fmtDate now), ("time", fmtHMSCompact now),
       ("datetime", fmtTimestamp now), ("execution_id", executionId),
       ("ext", ext)]
      timeRange
  let filename := replace_template_variables filenamePattern templateVars
  if !(pyEndsWith filename ("." ++ ext)) &&
      !(strContains filenamePattern ("\x7bext\x7d")) then
    filename ++ "." ++ ext
  else filename

/-- deliver_via_sftp: create a pending log row, validate host, username and
password, retry the upload up to max_retry times and record the outcome.
A validation failure happens before send_start is bound, so the except
handler raises NameError and the row stays pending. The 10-second overall
ceiling never fires under the constant-clock model (elapsed is always 0). -/
def deliver_via_sftp (env : Env) (db : Db) (delivery : ReportDelivery)
    (filePath : String) (executionId : String) (config : ReportConfig)
    (timeRange : List (String × String)) (scheduleId : Option Nat) :
    Db × DeliverOutcome :=
  let logId := db.nextLogId
  let log0 : ReportDeliveryLog :=
    { id := logId, configId := config.id, deliveryId := delivery.id,
      scheduleId := scheduleId, executionId := executionId,
      status := "pending", sentAt := some env.now }
  let db1 : Db :=
    { db with deliveryLogs := db.deliveryLogs ++ [log0], nextLogId := logId + 1 }
  let sftpConfig := delivery.deliveryConfig.getD {}
  let _port := sftpConfig.port.getD 22
  let _remotePath := sftpConfig.remotePath.getD "/"
  if !(pyTruthyOptStr sftpConfig.host) || !(pyTruthyOptStr sftpConfig.username) ||
      !(pyTruthyOptStr sftpConfig.password) then
    (db1, .raised nameErrorSendStart)
  else
    let filenamePattern :=
      (config.parameters.bind (fun p => p.filenameTemplate)).getD
        "\x7breport_name\x7d.\x7bext\x7d"
    let _remoteFilename :=
      build_remote_filename filenamePattern config timeRange executionId
        filePath env.now
    let maxRetry := pyOrNat delivery.maxRetry 3
    let _retryInterval := pyOrNat delivery.retryIntervalMinutes 2
    match firstSuccess (env.sftpUploadOk delivery.id) maxRetry with
    | some attempt =>
      let log1 :=
        { log0 with
            status := "success", completedAt := some env.now,
            recipientCount := 1, successCount := 1, failureCount := 0,
            retryCount := attempt - 1, fileSizeBytes := some env.fileSize,
            processingTimeMs := some 0 }
      ({ db1 with deliveryLogs := db.deliveryLogs ++ [log1] }, .ok logId)
    | none =>
      let log1 :=
        { log0 with
            status := "failed", completedAt := some env.now,
            recipientCount := 1, successCount := 0, failureCount := 1,
            retryCount := maxRetry, errorMessage := some "sftp upload failed",
            processingTimeMs := some 0 }
      ({ db1 with deliveryLogs := db.deliveryLogs ++ [log1] }, .ok logId)

/-- Find an execution record by id. -/
def findExec (db : Db) (executionId : String) : Option ReportExecution :=
  db.executions.find? (fun e => e.id == executionId)

/-- Update the execution record with the given id in place. -/
def updateExec (db : Db) (executionId : String)
    (f : ReportExecution → ReportExecution) : Db :=
  { db with executions :=
      db.executions.map (fun e => if e.id == executionId then f e else e) }

/-- The orchestrator's except-path: mark the execution failed with the
captured error message and completion time. -/
def failExec (db : Db) (executionId : String) (now : Nat) (msg : String) : Db :=
  updateExec db executionId (fun e =>
    { e with status := "failed", completedAt := some now,
             errorMessage := some msg })

/-- Step 3b of the orchestrator: static-filter values exposed as template
variables (field name stripped of any table prefix, list values joined with
a comma and space); empty field names and null values are skipped. -/
def filterVariablesOf (filters : List ReportFilter) : List (String × String) :=
  filters.foldl
    (fun acc f =>
      match f.field, f.value with
      | some fld, some v =>
        if fld = "" then acc
        else
          let fieldName :=
            if strContains fld "." then
              ((splitOnChar fld (Char.ofNat 46)).getLast?).getD fld
            else fld
          let valueStr :=
            match v with
            | .listv vs => String.intercalate ", " (vs.map pyStr)
            | _ => pyStr v
          dictInsert acc fieldName valueStr
      | _, _ => acc)
    []

/-- Step 4a of the orchestrator: splice the auto date filter into the base
query (the executor's own inline copy of the insertion-point scan). -/
def insertDateFilter (baseQuery dateFilter : String) : String :=
  let queryUpper := pyUpper baseQuery
  let hasWhere := strContains queryUpper "WHERE"
  let insertionPos := insertionPosIn queryUpper baseQuery.length
  if hasWhere then
    pyRstrip (strTake baseQuery insertionPos) ++ "\nAND " ++ dateFilter ++ "\n" ++
      strDrop baseQuery insertionPos
  else
    pyRstrip (strTake baseQuery insertionPos) ++ "\nWHERE " ++ dateFilter ++ "\n" ++
      strDrop baseQuery insertionPos

/-- Outcome of the delivery loop: number of dispatched deliveries, or an
exception escaping one deliverer (which aborts the loop and the execution). -/
inductive LoopOutcome where
  | ok (count : Nat) : LoopOutcome
  | raised (err : String) : LoopOutcome
deriving DecidableEq

/-- Step 7 of the orchestrator: dispatch every active delivery to its
channel; an unsupported method is logged and skipped. -/
def deliverLoop (env : Env) (filePath executionId : String)
    (config : ReportConfig) (timeRange : List (String × String))
    (scheduleId : Option Nat) :
    List ReportDelivery → Db → Nat → Db × LoopOutcome
  | [], db, count => (db, .ok count)
  | d :: rest, db, count =>
    if d.method == "email" then
      match deliver_via_email env db d filePath executionId config timeRange
          scheduleId with
      | (db', .ok _) =>
        deliverLoop env filePath executionId config timeRange scheduleId rest
          db' (count + 1)
      | (db', .raised e) => (db', .raised e)
    else if d.method == "sftp" then
      match deliver_via_sftp env db d filePath executionId config timeRange
          scheduleId with
      | (db', .ok _) =>
        deliverLoop env filePath executionId config timeRange scheduleId rest
          db' (count + 1)
      | (db', .raised e) => (db', .raised e)
    else
      deliverLoop env filePath executionId config timeRange scheduleId rest
        db count

/-- The successful return value of execute_report (the fields a caller
reads). -/
structure ExecResult where
  executionId : String
  configId : Nat
  status : String
  rowsReturned : Nat
  filePath : String
  fileSizeBytes : Nat
  deliveriesSent : Nat
deriving DecidableEq

/-- Step 1 of the orchestrator: resolve or create the execution record and
mark it running with the start time. -/
def execDb1 (db : Db) (configId : Nat) (scheduleId : Option Nat)
    (executedBy executionId : String) (executionStart : Nat) : Db :=
  match findExec db executionId with
  | some _ =>
    updateExec db executionId (fun e =>
      { e with status := "running", startedAt := some executionStart })
  | none =>
    { db with executions := db.executions ++
        [({ id := executionId, configId := configId, scheduleId := scheduleId,
            status := "running", startedAt := some executionStart,
            executedBy := executedBy } : ReportExecution)] }

/-- The active deliveries of a config. -/
def activeDeliveries (db : Db) (configId : Nat) : List ReportDelivery :=
  db.deliveries.filter (fun d => d.configId == configId && d.isActive)

/-- Step 3b: the template variables extracted from the config's static
filters. -/
def executorFilterVars (config : ReportConfig) : List (String × String) :=
  match config.parameters with
  | some ps => filterVariablesOf ps.filters
  | none => []

/-- Step 3: the time-range mapping merged with the static-filter
variables. -/
def executorTimeRange (config : ReportConfig)
    (schedule : Option ReportSchedule) (executionStart : Nat) :
    List (String × String) :=
  dictUpdate (calculate_time_range schedule executionStart)
    (executorFilterVars config)

/-- Step 4a: the base query after the auto date filter (if configured). -/
def executorBaseQuery1 (config : ReportConfig)
    (schedule : Option ReportSchedule) (timeRange : List (String × String)) :
    String :=
  match config.parameters with
  | some ps =>
    match ps.dateField with
    | some dateField =>
      if dateField = "" then config.reportQuery
      else
        let cronExpr := schedule.bind (fun s => s.cronExpression)
        let dateFilter := build_auto_date_filter dateField timeRange cronExpr
        if dateFilter = "" then config.reportQuery
        else insertDateFilter config.reportQuery dateFilter
    | none => config.reportQuery
  | none => config.reportQuery

/-- Step 4b: the query after the static filters. -/
def executorBaseQuery2 (config : ReportConfig)
    (timeRange : List (String × String)) (baseQuery1 : String) : String :=
  match config.parameters with
  | some ps =>
    if ps.filters.isEmpty then baseQuery1
    else apply_filters_to_query baseQuery1 ps.filters timeRange
  | none => baseQuery1

/-- Step 4c: the final executable query. -/
def executorFinalQuery (config : ReportConfig)
    (schedule : Option ReportSchedule) (timeRange : List (String × String)) :
    String :=
  replace_template_variables
    (executorBaseQuery2 config timeRange
      (executorBaseQuery1 config schedule timeRange)) timeRange

/-- Step 6: the generated file name (custom template or the default
ReportName_timestamp.ext, sanitised). -/
def executorFileName (config : ReportConfig)
    (timeRange : List (String × String)) (executionStart : Nat) : String :=
  let fileExtension := if config.outputFormat == "xlsx" then "xlsx" else "csv"
  let defaultFileName :=
    pyReplace (pyReplace config.reportName " " "_") "/" "_" ++ "_" ++
      fmtTimestamp executionStart ++ "." ++ fileExtension
  match config.parameters.bind (fun p => p.filenameTemplate) with
  | some tmpl =>
    if tmpl = "" then defaultFileName
    else
      let base := replace_template_variables tmpl timeRange
      let base := pyReplace (pyReplace (pyReplace base " " "_") "/" "_") ":" "-"
      base ++ "." ++ fileExtension
  | none => defaultFileName

/-- The output path of the generated file (the fixed REPORT_OUTPUT_PATH
environment prefix is omitted). -/
def executorOutputPath (config : ReportConfig)
    (timeRange : List (String × String)) (executionStart : Nat)
    (executionId : String) : String :=
  executionId ++ "/" ++ executorFileName config timeRange executionStart

/-- Step 4's audit write: persist original and final query into the
execution context. -/
def execDb2 (db1 : Db) (executionId : String) (config : ReportConfig)
    (finalQuery : String) : Db :=
  updateExec db1 executionId (fun e =>
    { e with ctxOriginalQuery := some config.reportQuery,
             ctxFinalQuery := some finalQuery })

/-- Steps 5-6's result write: row count, timing and file details. -/
def execDb3 (db2 : Db) (executionId : String) (rows : Nat)
    (outputPath : String) (fileSize : Nat) : Db :=
  updateExec db2 executionId (fun e =>
    { e with queryTimeMs := some 0, rowsReturned := some rows,
             filePath := some outputPath, fileSizeBytes := some fileSize })

/-- Step 8: mark the execution completed. -/
def execComplete (db4 : Db) (executionId : String) (now : Nat) : Db :=
  updateExec db4 executionId (fun e =>
    { e with status := "completed", completedAt := some now })

/-- Step 9: advance schedule.last_run_at to the execution's logical start
time. -/
def execAdvanceSchedule (db5 : Db) (schedule : Option ReportSchedule)
    (executionStart : Nat) : Db :=
  match schedule with
  | some s =>
    { db5 with schedules := db5.schedules.map (fun x =>
        if x.id == s.id then { x with lastRunAt := some executionStart }
        else x) }
  | none => db5

/-- execute_report: the orchestrator. Creates or resumes the execution
record, loads configuration, computes the window, builds and runs the query,
renders the file, dispatches deliveries, then marks the execution completed
and advances schedule.last_run_at; any failure before that marks the
execution failed and re-raises a wrapped error. -/
def execute_report (env : Env) (db : Db) (configId : Nat)
    (scheduleId : Option Nat) (executedBy : String)
    (executionIdOpt : Option String) : Db × Except String ExecResult :=
  let executionId := executionIdOpt.getD env.freshId
  let executionStart := env.now
  let db1 := execDb1 db configId scheduleId executedBy executionId executionStart
  match db1.configs.find? (fun c => c.id == configId && c.isActive) with
  | none =>
    let msg := "Config " ++ toString configId ++ " not found or inactive"
    (failExec db1 executionId env.now msg,
     .error ("Report execution failed: " ++ msg))
  | some config =>
    match db1.datasources.find?
        (fun d => d.id == config.datasourceId && d.isActive) with
    | none =>
      let msg := "Datasource " ++ toString config.datasourceId ++
        " not found or inactive"
      (failExec db1 executionId env.now msg,
       .error ("Report execution failed: " ++ msg))
    | some datasource =>
      let deliveries := activeDeliveries db1 configId
      let schedule :=
        scheduleId.bind (fun sid => db1.schedules.find? (fun s => s.id == sid))
      let timeRange := executorTimeRange config schedule executionStart
      let finalQuery := executorFinalQuery config schedule timeRange
      let db2 := execDb2 db1 executionId config finalQuery
      let queryOutcome :=
        if datasource.dbType == "mysql" then env.queryResult
        else Except.error ("Unsupported datasource type: " ++ datasource.dbType)
      match queryOutcome with
      | .error msg =>
        (failExec db2 executionId env.now msg,
         .error ("Report execution failed: " ++ msg))
      | .ok rowsReturned =>
        let outputPath := executorOutputPath config timeRange executionStart
          executionId
        match env.renderResult with
        | .error msg =>
          (failExec db2 executionId env.now msg,
           .error ("Report execution failed: " ++ msg))
        | .ok _ =>
          let fileSize := env.fileSize
          let db3 := execDb3 db2 executionId rowsReturned outputPath fileSize
          match deliverLoop env outputPath executionId config timeRange
              scheduleId deliveries db3 0 with
          | (db4, .raised err) =>
            (failExec db4 executionId env.now err,
             .error ("Report execution failed: " ++ err))
          | (db4, .ok deliveryCount) =>
            let db5 := execComplete db4 executionId env.now
            let db6 := execAdvanceSchedule db5 schedule executionStart
            (db6, .ok
              { executionId := executionId, configId := configId,
                status := "completed", rowsReturned := rowsReturned,
                filePath := outputPath, fileSizeBytes := fileSize,
                deliveriesSent := deliveryCount })

/-- A queue message as consumed by the worker. -/
structure KafkaMessage where
  executionId : Option String := none
  configId : Nat := 0
  scheduleId : Option Nat := none
  executedBy : String := "system"
deriving DecidableEq

/-- Worker handler outcome: idempotency skip, a successful execution result,
or a re-raised execution failure. -/
inductive WorkerOutcome where
  | skipped : WorkerOutcome
  | done (result : ExecResult) : WorkerOutcome
  | errored (msg : String) : WorkerOutcome
deriving DecidableEq

/-- process_execution_request: the queue worker's handler — idempotency
check (skip when the execution id already exists with status completed),
then dispatch to the orchestrator, re-raising its failure. -/
def process_execution_request (env : Env) (db : Db) (msg : KafkaMessage) :
    Db × WorkerOutcome :=
  let existing := msg.executionId.bind (findExec db)
  match existing with
  | some e =>
    if e.status == "completed" then (db, .skipped)
    else
      match execute_report env db msg.configId msg.scheduleId msg.executedBy
          msg.executionId with
      | (db', .ok r) => (db', .done r)
      | (db', .error m) => (db', .errored m)
  | none =>
    match execute_report env db msg.configId msg.scheduleId msg.executedBy
        msg.executionId with
    | (db', .ok r) => (db', .done r)
    | (db', .error m) => (db', .errored m)

/- Helper lemmas about the time-range mapping. -/

theorem lookup_tr_start_datetime (sched : Option ReportSchedule) (t : Nat) :
    (calculate_time_range sched t).lookup "start_datetime"
      = some (fmtDateTime (computeWindow sched t).1) := rfl

theorem lookup_tr_end_datetime (sched : Option ReportSchedule) (t : Nat) :
    (calculate_time_range sched t).lookup "end_datetime"
      = some (fmtDateTime (computeWindow sched t).2.1) := rfl

theorem lookup_tr_method (sched : Option ReportSchedule) (t : Nat) :
    (calculate_time_range sched t).lookup "calculation_method"
      = some (computeWindow sched t).2.2 := rfl

theorem lookup_tr_yesterday (sched : Option ReportSchedule) (t : Nat) :
    (calculate_time_range sched t).lookup "yesterday"
      = some (fmtDate ((computeWindow sched t).2.1 - secsPerDay)) := rfl

theorem lookup_tr_execution_time (sched : Option ReportSchedule) (t : Nat) :
    (calculate_time_range sched t).lookup "execution_time"
      = some (fmtDateTime (computeWindow sched t).2.1) := rfl

theorem lookup_tr_execution_date (sched : Option ReportSchedule) (t : Nat) :
    (calculate_time_range sched t).lookup "execution_date"
      = some (fmtDate (computeWindow sched t).2.1) := rfl

theorem lookup_tr_end_date (sched : Option ReportSchedule) (t : Nat) :
    (calculate_time_range sched t).lookup "end_date"
      = some (fmtDate (computeWindow sched t).2.1) := rfl

theorem lookup_tr_execution_hour (sched : Option ReportSchedule) (t : Nat) :
    (calculate_time_range sched t).lookup "execution_hour"
      = some (fmtHour (computeWindow sched t).2.1) := rfl

theorem computeWindow_last_run (s : ReportSchedule) (t lr : Nat)
    (h : s.lastRunAt = some lr) :
    computeWindow (some s) t = (lr, t, "last_run_at") := by
  simp [computeWindow, h]

/-- Claim C4: for a schedule with last_run_at set, the computed window starts
at last_run_at, ends at the (timezone-normalised, here naive) execution
instant, and the calculation_method tag is last_run_at. -/
theorem c4_last_run_at_window (s : ReportSchedule) (t lr : Nat)
    (h : s.lastRunAt = some lr) :
    computeWindow (some s) t = (lr, t, "last_run_at") ∧
    (calculate_time_range (some s) t).lookup "start_datetime"
      = some (fmtDateTime lr) ∧
    (calculate_time_range (some s) t).lookup "end_datetime"
      = some (fmtDateTime t) ∧
    (calculate_time_range (some s) t).lookup "calculation_method"
      = some "last_run_at" := by
  have hw := computeWindow_last_run s t lr h
  refine ⟨hw, ?_, ?_, ?_⟩
  · rw [lookup_tr_start_datetime, hw]
  · rw [lookup_tr_end_datetime, hw]
  · rw [lookup_tr_method, hw]

/-- A schedule fixture with last_run_at set. -/
def schedC4 : ReportSchedule := { id := 1, lastRunAt := some 1759622400 }

/-- Witness for C4 at a concrete schedule and instant. -/
theorem c4_last_run_at_window_witness :
    computeWindow (some schedC4) 1759773600 = (1759622400, 1759773600, "last_run_at") ∧
    (calculate_time_range (some schedC4) 1759773600).lookup "start_datetime"
      = some (fmtDateTime 1759622400) ∧
    (calculate_time_range (some schedC4) 1759773600).lookup "end_datetime"
      = some (fmtDateTime 1759773600) ∧
    (calculate_time_range (some schedC4) 1759773600).lookup "calculation_method"
      = some "last_run_at" :=
  c4_last_run_at_window schedC4 1759773600 1759622400 rfl

theorem cronPrevAux_le (c : Cron) :
    ∀ fuel m v, cronPrevAux c fuel m = some v → v ≤ m * 60 := by
  intro fuel
  induction fuel with
  | zero => intro m v h; simp [cronPrevAux] at h
  | succ n ih =>
    intro m v h
    unfold cronPrevAux at h
    by_cases hm : cronMatchesMinute c m
    · simp [hm] at h
      omega
    · simp [hm] at h
      by_cases h0 : m = 0
      · simp [h0] at h
      · simp [h0] at h
        have := ih (m - 1) v h
        omega

theorem cronPrev_lt (c : Cron) (t v : Nat) (h : cronPrev c t = some v) :
    v < t := by
  unfold cronPrev at h
  by_cases ht : t = 0
  · simp [ht] at h
  · simp [ht] at h
    have h1 := cronPrevAux_le c cronSearchFuel ((t - 1) / 60) v h
    have h2 : (t - 1) / 60 * 60 ≤ t - 1 := Nat.div_mul_le_self _ _
    omega

/-- Claim C5: with no last_run_at and a cron expression, a successful parse
and backwards search yield a cron_detection window whose two edges are both
strictly before the execution instant, the start strictly preceding the end;
a parse failure falls back to the daily window ending at the instant. -/
theorem c5_cron_detection_window (s : ReportSchedule) (t : Nat) (e : String)
    (hl : s.lastRunAt = none) (hc : s.cronExpression = some e) :
    (∀ c e1 s1, parseCron e = some c → cronPrev c t = some e1 →
       cronPrev c e1 = some s1 →
       computeWindow (some s) t = (s1, e1, "cron_detection") ∧
       s1 < e1 ∧ e1 < t ∧
       (calculate_time_range (some s) t).lookup "calculation_method"
         = some "cron_detection") ∧
    (parseCron e = none →
       computeWindow (some s) t = (t - secsPerDay, t, "default_daily") ∧
       (calculate_time_range (some s) t).lookup "calculation_method"
         = some "default_daily") := by
  constructor
  · intro c e1 s1 hp h1 h2
    have he : e ≠ "" := by
      intro habs
      rw [habs, show parseCron "" = none from rfl] at hp
      simp at hp
    have hw : computeWindow (some s) t = (s1, e1, "cron_detection") := by
      simp [computeWindow, hl, hc, he, hp, h1, h2]
    refine ⟨hw, cronPrev_lt c e1 s1 h2, cronPrev_lt c t e1 h1, ?_⟩
    rw [lookup_tr_method, hw]
  · intro hp
    have hw : computeWindow (some s) t = (t - secsPerDay, t, "default_daily") := by
      by_cases he : e = ""
      · simp [computeWindow, hl, hc, he]
      · simp [computeWindow, hl, hc, he, hp]
    exact ⟨hw, by rw [lookup_tr_method, hw]⟩

/-- A schedule fixture with a five-minute cron and no last_run_at. -/
def schedC5 : ReportSchedule := { id := 2, cronExpression := some "*/5 * * * *" }

/-- A schedule fixture whose cron expression does not parse. -/
def schedC5bad : ReportSchedule := { id := 3, cronExpression := some "not a cron" }

/-- The parsed form of the C5 cron fixture. -/
def cronC5 : Cron :=
  { minute := .every 5, hour := .star, day := .star, month := .star,
    weekday := .star }

/-- Witness for C5: the concrete cron window before 2025-10-06 18:00:00 and
the concrete parse-failure fallback. -/
theorem c5_cron_detection_window_witness :
    (computeWindow (some schedC5) 1759773600 =
       (1759773000, 1759773300, "cron_detection") ∧
     1759773000 < 1759773300 ∧ 1759773300 < 1759773600 ∧
     (calculate_time_range (some schedC5) 1759773600).lookup "calculation_method"
       = some "cron_detection") ∧
    (computeWindow (some schedC5bad) 1759773600 =
       (1759773600 - secsPerDay, 1759773600, "default_daily") ∧
     (calculate_time_range (some schedC5bad) 1759773600).lookup "calculation_method"
       = some "default_daily") :=
  ⟨(c5_cron_detection_window schedC5 1759773600 "*/5 * * * *" rfl rfl).1
     cronC5 1759773300 1759773000 (by decide) (by decide) (by decide),
   (c5_cron_detection_window schedC5bad 1759773600 "not a cron" rfl rfl).2
     (by decide)⟩

/-- Claim C10: the derived execution_time, execution_date and execution_hour
placeholders all name the window's end (and yesterday is the end minus one
day); under cron_detection that end is the most recent prior cron occurrence,
strictly before the invocation instant. -/
theorem c10_execution_placeholders (sched : Option ReportSchedule) (t : Nat) :
    (calculate_time_range sched t).lookup "execution_time"
      = (calculate_time_range sched t).lookup "end_datetime" ∧
    (calculate_time_range sched t).lookup "execution_date"
      = (calculate_time_range sched t).lookup "end_date" ∧
    (calculate_time_range sched t).lookup "execution_hour"
      = some (fmtHour (computeWindow sched t).2.1) ∧
    (calculate_time_range sched t).lookup "yesterday"
      = some (fmtDate ((computeWindow sched t).2.1 - secsPerDay)) ∧
    ((computeWindow sched t).2.2 = "cron_detection" →
      (computeWindow sched t).2.1 < t) := by
  refine ⟨rfl, rfl, rfl, rfl, ?_⟩
  intro hm
  match sched with
  | none => simp [computeWindow] at hm
  | some s =>
    match hlr : s.lastRunAt with
    | some lr => simp [computeWindow, hlr] at hm
    | none =>
      match hce : s.cronExpression with
      | none => simp [computeWindow, hlr, hce] at hm
      | some expr =>
        by_cases he : expr = ""
        · simp [computeWindow, hlr, hce, he] at hm
        · match hp : parseCron expr with
          | none => simp [computeWindow, hlr, hce, he, hp] at hm
          | some c =>
            match h1 : cronPrev c t with
            | none => simp [computeWindow, hlr, hce, he, hp, h1] at hm
            | some e1 =>
              match h2 : cronPrev c e1 with
              | none => simp [computeWindow, hlr, hce, he, hp, h1, h2] at hm
              | some s1 =>
                have hw : computeWindow (some s) t = (s1, e1, "cron_detection") := by
                  simp [computeWindow, hlr, hce, he, hp, h1, h2]
                rw [hw]
                exact cronPrev_lt c t e1 h1

/-- Witness for C10 at a concrete cron schedule (the cron_detection premise
holds and the end edge is the prior occurrence, before the instant). -/
theorem c10_execution_placeholders_witness :
    (calculate_time_range (some { id := 2, cronExpression := some "*/5 * * * *" }) 1759773600).lookup "execution_time"
      = (calculate_time_range (some { id := 2, cronExpression := some "*/5 * * * *" }) 1759773600).lookup "end_datetime" ∧
    (calculate_time_range (some { id := 2, cronExpression := some "*/5 * * * *" }) 1759773600).lookup "execution_date"
      = (calculate_time_range (some { id := 2, cronExpression := some "*/5 * * * *" }) 1759773600).lookup "end_date" ∧
    (calculate_time_range (some { id := 2, cronExpression := some "*/5 * * * *" }) 1759773600).lookup "execution_hour"
      = some (fmtHour (computeWindow (some { id := 2, cronExpression := some "*/5 * * * *" }) 1759773600).2.1) ∧
    (calculate_time_range (some { id := 2, cronExpression := some "*/5 * * * *" }) 1759773600).lookup "yesterday"
      = some (fmtDate ((computeWindow (some { id := 2, cronExpression := some "*/5 * * * *" }) 1759773600).2.1 - secsPerDay)) ∧
    ((computeWindow (some { id := 2, cronExpression := some "*/5 * * * *" }) 1759773600).2.2 = "cron_detection" →
      (computeWindow (some { id := 2, cronExpression := some "*/5 * * * *" }) 1759773600).2.1 < 1759773600) :=
  c10_execution_placeholders
    (some { id := 2, cronExpression := some "*/5 * * * *" }) 1759773600

theorem is_date_filter_of_dtype (f : ReportFilter)
    (h : f.dtype.getD "string" = "date") : is_date_filter f = true := by
  unfold is_date_filter
  simp [h]

theorem is_date_filter_of_pattern (f : ReportFilter) (p : String)
    (hp : p ∈ datePatterns)
    (hc : strContains (pyLower (f.field.getD "")) (pyLower p) = true) :
    is_date_filter f = true := by
  unfold is_date_filter
  by_cases hd : (f.dtype.getD "string") == "date"
  · simp [hd]
  · simp only [hd, Bool.false_eq_true, if_false]
    exact List.any_eq_true.mpr ⟨p, hp, hc⟩

theorem conditionOf_none_of_date (tv : List (String × String))
    (f : ReportFilter) (h : is_date_filter f = true) :
    conditionOf tv f = none := by
  unfold conditionOf
  simp [h]

/-- The date-ish patterns enumerated by the specification (lower case, as
they are matched). -/
def claimDatePatterns : List String :=
  ["created_at", "updated_at", "_date", "date_", "datetime", "time_",
   "date(", "timestamp("]

theorem claim_patterns_subsumed :
    ∀ p ∈ claimDatePatterns, ∃ q ∈ datePatterns, pyLower q = p := by
  decide

/-- Claim C6: a date-typed filter, or one whose field name matches a
spec-listed date pattern, contributes no condition: the builder's output on
any list containing it equals the output with it removed. -/
theorem c6_date_filters_contribute_nothing (q : String)
    (tv : List (String × String)) (fs1 fs2 : List ReportFilter)
    (f : ReportFilter)
    (h : f.dtype.getD "string" = "date" ∨
      ∃ p ∈ claimDatePatterns,
        strContains (pyLower (f.field.getD "")) p = true) :
    apply_filters_to_query q (fs1 ++ f :: fs2) tv
      = apply_filters_to_query q (fs1 ++ fs2) tv := by
  have hdf : is_date_filter f = true := by
    rcases h with h | ⟨p, hp, hc⟩
    · exact is_date_filter_of_dtype f h
    · obtain ⟨qq, hqq, hlow⟩ := claim_patterns_subsumed p hp
      exact is_date_filter_of_pattern f qq hqq (by rw [hlow]; exact hc)
  have hnone : conditionOf tv f = none := conditionOf_none_of_date tv f hdf
  have hcond : (fs1 ++ f :: fs2).filterMap (conditionOf tv)
      = (fs1 ++ fs2).filterMap (conditionOf tv) := by
    simp [List.filterMap_append, List.filterMap_cons, hnone]
  unfold apply_filters_to_query
  rw [hcond]

/-- A date filter fixture (field matches created_at). -/
def filterC6date : ReportFilter :=
  { field := some "t.created_at", operator := some ">",
    value := some (.str "2025-01-01") }

/-- A surviving value filter fixture. -/
def filterC6status : ReportFilter :=
  { field := some "status", operator := some "=", value := some (.str "paid") }

/-- Witness for C6: dropping the created_at filter leaves the output
unchanged on a concrete query. -/
theorem c6_date_filters_contribute_nothing_witness :
    apply_filters_to_query "SELECT * FROM t"
        ([] ++ filterC6date :: [filterC6status]) []
      = apply_filters_to_query "SELECT * FROM t" ([] ++ [filterC6status]) [] :=
  c6_date_filters_contribute_nothing "SELECT * FROM t" [] [] [filterC6status]
    filterC6date (Or.inr ⟨"created_at", by decide, by decide⟩)

theorem insStep_le (up : String) (a : Nat) (kw : String) :
    insStep up a kw ≤ a := by
  unfold insStep
  cases hf : strFind up kw with
  | none => exact le_refl a
  | some p =>
    by_cases hlt : p < a
    · simp [hlt]
      omega
    · simp [hlt]

theorem insStep_cases (up : String) (a : Nat) (kw : String) :
    insStep up a kw = a ∨ strFind up kw = some (insStep up a kw) := by
  unfold insStep
  cases hf : strFind up kw with
  | none => exact Or.inl rfl
  | some p =>
    by_cases hlt : p < a
    · simp [hlt]
    · simp [hlt]

theorem insStep_le_found (up : String) (a : Nat) (kw : String) (i : Nat)
    (hf : strFind up kw = some i) : insStep up a kw ≤ i := by
  unfold insStep
  rw [hf]
  by_cases hlt : i < a
  · simp [hlt]
  · simp [hlt]
    omega

theorem insFold_spec (up : String) :
    ∀ (ks : List String) (a : Nat),
      (ks.foldl (insStep up) a = a ∨
        ∃ kw ∈ ks, strFind up kw = some (ks.foldl (insStep up) a)) ∧
      (∀ kw ∈ ks, ∀ i, strFind up kw = some i → ks.foldl (insStep up) a ≤ i) ∧
      ks.foldl (insStep up) a ≤ a := by
  intro ks
  induction ks with
  | nil =>
    intro a
    refine ⟨Or.inl rfl, ?_, le_refl a⟩
    intro kw hkw
    simp at hkw
  | cons kw rest ih =>
    intro a
    obtain ⟨ih1, ih2, ih3⟩ := ih (insStep up a kw)
    simp only [List.foldl_cons]
    refine ⟨?_, ?_, ?_⟩
    · rcases ih1 with heq | ⟨kw', hkw', hf'⟩
      · rw [heq]
        rcases insStep_cases up a kw with h1 | h1
        · exact Or.inl h1
        · exact Or.inr ⟨kw, List.mem_cons_self kw rest, h1⟩
      · exact Or.inr ⟨kw', List.mem_cons_of_mem kw hkw', hf'⟩
    · intro kw' hkw' i hf'
      rcases List.mem_cons.mp hkw' with heq | hmem
      · subst heq
        exact le_trans ih3 (insStep_le_found up a kw' i hf')
      · exact ih2 kw' hmem i hf'
    · exact le_trans ih3 (insStep_le up a kw)

theorem strFindAux_lt (pat : List Char) (hne : pat ≠ []) :
    ∀ s i j, strFindAux pat s i = some j → j < i + s.length := by
  intro s
  induction s with
  | nil =>
    intro i j h
    unfold strFindAux at h
    have : pat.isEmpty = false := by
      cases pat with
      | nil => exact absurd rfl hne
      | cons a l => rfl
    rw [this] at h
    simp at h
  | cons c rest ih =>
    intro i j h
    unfold strFindAux at h
    by_cases hp : pat.isPrefixOf (c :: rest)
    · simp [hp] at h
      simp [← h]
    · simp [hp] at h
      have := ih (i + 1) j h
      simp
      omega

theorem strFind_lt (s pat : String) (j : Nat) (hne : pat ≠ "")
    (h : strFind s pat = some j) : j < s.length := by
  have hne' : pat.toList ≠ [] := by
    intro habs
    apply hne
    cases pat
    simp only [String.toList] at habs
    rw [habs]
  have := strFindAux_lt pat.toList hne' s.toList 0 j h
  simpa using this

theorem pyUpper_length (s : String) : (pyUpper s).length = s.length := by
  show (s.toList.map Char.toUpper).length = s.length
  rw [List.length_map]
  rfl

theorem strTake_drop (s : String) (n : Nat) :
    strTake s n ++ strDrop s n = s := by
  show String.mk (s.toList.take n) ++ String.mk (s.toList.drop n) = s
  have hmk : ∀ a b : List Char, String.mk a ++ String.mk b = String.mk (a ++ b) :=
    fun a b => rfl
  rw [hmk, List.take_append_drop]
  rfl

theorem strTake_length (s : String) : strTake s s.length = s := by
  show String.mk (s.toList.take s.length) = s
  have : s.length = s.toList.length := rfl
  rw [this, List.take_length]
  rfl

theorem strDrop_length (s : String) : strDrop s s.length = "" := by
  show String.mk (s.toList.drop s.length) = ""
  have : s.length = s.toList.length := rfl
  rw [this, List.drop_length]

/-- Claim C7: with a non-empty set of surviving conditions, the builder
splices the clause (AND-prefixed when the query contains WHERE, a fresh
WHERE otherwise) at the insertion position; the query splits exactly there
with the trailing part preserved; when no trailing keyword occurs the
position is the end of the query (appending); when one occurs the position
is the earliest keyword occurrence. -/
theorem c7_injection_policy (q : String) (fs : List ReportFilter)
    (tv : List (String × String))
    (h : fs.filterMap (conditionOf tv) ≠ []) :
    apply_filters_to_query q fs tv
      = pyRstrip (strTake q (insertionPosIn (pyUpper q) q.length)) ++ "\n" ++
        ((if strContains (pyUpper q) "WHERE" = true then "AND " else "WHERE ") ++
          String.intercalate " AND " (fs.filterMap (conditionOf tv))) ++ "\n" ++
        strDrop q (insertionPosIn (pyUpper q) q.length) ∧
    strTake q (insertionPosIn (pyUpper q) q.length) ++
      strDrop q (insertionPosIn (pyUpper q) q.length) = q ∧
    ((∀ kw ∈ insertionKeywords, strFind (pyUpper q) kw = none) →
      insertionPosIn (pyUpper q) q.length = q.length ∧
      apply_filters_to_query q fs tv
        = pyRstrip q ++ "\n" ++
          ((if strContains (pyUpper q) "WHERE" = true then "AND " else "WHERE ") ++
            String.intercalate " AND " (fs.filterMap (conditionOf tv))) ++ "\n") ∧
    ((∃ kw ∈ insertionKeywords, strFind (pyUpper q) kw ≠ none) →
      (∃ kw ∈ insertionKeywords,
        strFind (pyUpper q) kw = some (insertionPosIn (pyUpper q) q.length)) ∧
      (∀ kw ∈ insertionKeywords, ∀ i, strFind (pyUpper q) kw = some i →
        insertionPosIn (pyUpper q) q.length ≤ i)) := by
  obtain ⟨hcases, hmin, _hle⟩ := insFold_spec (pyUpper q) insertionKeywords q.length
  have hne : (fs.filterMap (conditionOf tv)).isEmpty = false := by
    cases hfm : fs.filterMap (conditionOf tv) with
    | nil => exact absurd hfm h
    | cons x xs => rfl
  have happly : apply_filters_to_query q fs tv
      = pyRstrip (strTake q (insertionPosIn (pyUpper q) q.length)) ++ "\n" ++
        ((if strContains (pyUpper q) "WHERE" = true then "AND " else "WHERE ") ++
          String.intercalate " AND " (fs.filterMap (conditionOf tv))) ++ "\n" ++
        strDrop q (insertionPosIn (pyUpper q) q.length) := by
    unfold apply_filters_to_query
    by_cases hw : strContains (pyUpper q) "WHERE"
    · simp [hne, hw]
    · simp [hne, hw]
  refine ⟨happly, strTake_drop q _, ?_, ?_⟩
  · intro hnone
    have hpos : insertionPosIn (pyUpper q) q.length = q.length := by
      rcases hcases with heq | ⟨kw, hkw, hfind⟩
      · exact heq
      · rw [hnone kw hkw] at hfind
        cases hfind
    refine ⟨hpos, ?_⟩
    rw [happly]
    rw [show insertionPosIn (pyUpper q) q.length = q.length from hpos,
      strTake_length, strDrop_length]
    have : ∀ x : String, x ++ "" = x := by
      intro x
      show x ++ String.mk [] = x
      cases x with
      | mk l =>
        show String.mk (l ++ []) = String.mk l
        rw [List.append_nil]
    rw [this]
  · intro hex
    rcases hcases with heq | hfound
    · exfalso
      obtain ⟨kw0, hkw0, hfind0⟩ := hex
      cases hf0 : strFind (pyUpper q) kw0 with
      | none => exact hfind0 hf0
      | some i =>
        have hkwne : kw0 ≠ "" := by
          have : ∀ kw ∈ insertionKeywords, kw ≠ "" := by decide
          exact this kw0 hkw0
        have hi : i < q.length := by
          have := strFind_lt (pyUpper q) kw0 i hkwne hf0
          rwa [pyUpper_length] at this
        have := hmin kw0 hkw0 i hf0
        omega
    · exact ⟨hfound, hmin⟩

/-- A surviving filter fixture for the C7 witness. -/
def filterC7 : ReportFilter :=
  { field := some "status", operator := some "=", value := some (.str "paid") }

/-- Witness for C7 on a concrete ORDER BY query. -/
theorem c7_injection_policy_witness :
    apply_filters_to_query "SELECT a FROM t ORDER BY a" [filterC7] []
      = pyRstrip (strTake "SELECT a FROM t ORDER BY a"
          (insertionPosIn (pyUpper "SELECT a FROM t ORDER BY a")
            (String.length "SELECT a FROM t ORDER BY a"))) ++ "\n" ++
        ((if strContains (pyUpper "SELECT a FROM t ORDER BY a") "WHERE" = true
            then "AND " else "WHERE ") ++
          String.intercalate " AND "
            ([filterC7].filterMap (conditionOf []))) ++ "\n" ++
        strDrop "SELECT a FROM t ORDER BY a"
          (insertionPosIn (pyUpper "SELECT a FROM t ORDER BY a")
            (String.length "SELECT a FROM t ORDER BY a")) ∧
    strTake "SELECT a FROM t ORDER BY a"
        (insertionPosIn (pyUpper "SELECT a FROM t ORDER BY a")
          (String.length "SELECT a FROM t ORDER BY a")) ++
      strDrop "SELECT a FROM t ORDER BY a"
        (insertionPosIn (pyUpper "SELECT a FROM t ORDER BY a")
          (String.length "SELECT a FROM t ORDER BY a"))
      = "SELECT a FROM t ORDER BY a" ∧
    ((∀ kw ∈ insertionKeywords,
        strFind (pyUpper "SELECT a FROM t ORDER BY a") kw = none) →
      insertionPosIn (pyUpper "SELECT a FROM t ORDER BY a")
          (String.length "SELECT a FROM t ORDER BY a")
        = String.length "SELECT a FROM t ORDER BY a" ∧
      apply_filters_to_query "SELECT a FROM t ORDER BY a" [filterC7] []
        = pyRstrip "SELECT a FROM t ORDER BY a" ++ "\n" ++
          ((if strContains (pyUpper "SELECT a FROM t ORDER BY a") "WHERE" = true
              then "AND " else "WHERE ") ++
            String.intercalate " AND "
              ([filterC7].filterMap (conditionOf []))) ++ "\n") ∧
    ((∃ kw ∈ insertionKeywords,
        strFind (pyUpper "SELECT a FROM t ORDER BY a") kw ≠ none) →
      (∃ kw ∈ insertionKeywords,
        strFind (pyUpper "SELECT a FROM t ORDER BY a") kw
          = some (insertionPosIn (pyUpper "SELECT a FROM t ORDER BY a")
              (String.length "SELECT a FROM t ORDER BY a"))) ∧
      (∀ kw ∈ insertionKeywords, ∀ i,
        strFind (pyUpper "SELECT a FROM t ORDER BY a") kw = some i →
        insertionPosIn (pyUpper "SELECT a FROM t ORDER BY a")
            (String.length "SELECT a FROM t ORDER BY a") ≤ i)) :=
  c7_injection_policy "SELECT a FROM t ORDER BY a" [filterC7] [] (by decide)

/-- A concrete time-range mapping for the C8 counterexample. -/
def trC8 : List (String × String) :=
  [("yesterday", "2025-10-05"), ("start_date", "2025-10-01"),
   ("end_date", "2025-10-02"), ("start_datetime", "2025-10-01 00:00:00"),
   ("end_datetime", "2025-10-02 00:00:00")]

/-- Counterexample to C8 as stated: cron "0 0 1 6 *" has day-of-month 1, so
the claim classifies it monthly (a DATE BETWEEN condition), but the code
also requires month to be star, so it emits the daily equality instead. -/
theorem c8_counterexample_day1_specific_month :
    cronGranularity (some "0 0 1 6 *") = "daily" ∧
    build_auto_date_filter "created_at" trC8 (some "0 0 1 6 *")
      = "DATE(created_at) = " ++ sqt ++ "2025-10-05" ++ sqt ∧
    build_auto_date_filter "created_at" trC8 (some "0 0 1 6 *")
      ≠ "DATE(created_at) BETWEEN " ++ sqt ++ "2025-10-01" ++ sqt ++ " AND " ++
        sqt ++ "2025-10-02" ++ sqt := by
  refine ⟨by decide, by decide, by decide⟩

/-- Claim C8 (amended): the classifier applies its rules in order — non-star
minute with star hour is hourly; a star-slash minute otherwise is sub-hourly;
a restricted weekday is weekly; day-of-month 1 is monthly only when the month
field is star (with a specific month it falls through to daily); anything
else is daily — and emission is the daily DATE equality against yesterday,
the hourly/sub-hourly BETWEEN on the datetime window, and the weekly/monthly
DATE BETWEEN on the date window. -/
theorem c8_granularity_and_emission (dateField : String)
    (tr : List (String × String)) (e mi hr dy mo wd : String)
    (rest : List String) (hf : dateField ≠ "") (he : e ≠ "")
    (hsplit : pySplitWs e = mi :: hr :: dy :: mo :: wd :: rest) :
    (mi ≠ "*" ∧ hr = "*" → cronGranularity (some e) = "hourly") ∧
    (¬(mi ≠ "*" ∧ hr = "*") → pyStartsWith mi "*/" = true →
      cronGranularity (some e) = "sub_hourly") ∧
    (¬(mi ≠ "*" ∧ hr = "*") → pyStartsWith mi "*/" = false → wd ≠ "*" →
      cronGranularity (some e) = "weekly") ∧
    (¬(mi ≠ "*" ∧ hr = "*") → pyStartsWith mi "*/" = false → wd = "*" →
      dy = "1" ∧ mo = "*" → cronGranularity (some e) = "monthly") ∧
    (¬(mi ≠ "*" ∧ hr = "*") → pyStartsWith mi "*/" = false → wd = "*" →
      ¬(dy = "1" ∧ mo = "*") → cronGranularity (some e) = "daily") ∧
    (cronGranularity (some e) = "daily" →
      build_auto_date_filter dateField tr (some e)
        = "DATE(" ++ dateField ++ ") = " ++ sqt ++
          pyStrOpt (tr.lookup "yesterday") ++ sqt) ∧
    (cronGranularity (some e) = "hourly" ∨ cronGranularity (some e) = "sub_hourly" →
      build_auto_date_filter dateField tr (some e)
        = dateField ++ " BETWEEN " ++ sqt ++
          pyStrOpt (tr.lookup "start_datetime") ++ sqt ++ " AND " ++ sqt ++
          pyStrOpt (tr.lookup "end_datetime") ++ sqt) ∧
    (cronGranularity (some e) = "weekly" ∨ cronGranularity (some e) = "monthly" →
      build_auto_date_filter dateField tr (some e)
        = "DATE(" ++ dateField ++ ") BETWEEN " ++ sqt ++
          pyStrOpt (tr.lookup "start_date") ++ sqt ++ " AND " ++ sqt ++
          pyStrOpt (tr.lookup "end_date") ++ sqt) := by
  refine ⟨?_, ?_, ?_, ?_, ?_, ?_, ?_, ?_⟩
  · rintro ⟨h1, h2⟩
    simp [cronGranularity, he, hsplit, h1, h2]
  · intro hn hs
    have hmi : mi ≠ "*" := by
      intro habs
      rw [habs] at hs
      exact absurd hs (by decide)
    have hhr : hr ≠ "*" := fun habs => hn ⟨hmi, habs⟩
    simp [cronGranularity, he, hsplit, hmi, hhr, hs]
  · intro hn hs hw
    rcases not_and_or.mp hn with h1 | h2
    · have h1' : mi = "*" := not_not.mp h1
      simp [cronGranularity, he, hsplit, h1', hs, hw]
      decide
    · simp [cronGranularity, he, hsplit, h2, hs, hw]
  · intro hn hs hw hdm
    rcases not_and_or.mp hn with h1 | h2
    · have h1' : mi = "*" := not_not.mp h1
      simp [cronGranularity, he, hsplit, h1', hs, hw, hdm.1, hdm.2]
      decide
    · simp [cronGranularity, he, hsplit, h2, hs, hw, hdm.1, hdm.2]
  · intro hn hs hw hdm
    rcases not_and_or.mp hn with h1 | h2
    · have h1' : mi = "*" := not_not.mp h1
      rcases not_and_or.mp hdm with h3 | h4
      · simp [cronGranularity, he, hsplit, h1', hs, hw, h3]
        decide
      · simp [cronGranularity, he, hsplit, h1', hs, hw, h4]
        decide
    · rcases not_and_or.mp hdm with h3 | h4
      · simp [cronGranularity, he, hsplit, h2, hs, hw, h3]
      · simp [cronGranularity, he, hsplit, h2, hs, hw, h4]
  · intro hg
    simp [build_auto_date_filter, hf, hg]
  · rintro (hg | hg) <;> simp [build_auto_date_filter, hf, hg]
  · rintro (hg | hg) <;> simp [build_auto_date_filter, hf, hg]

/-- Witness for C8 (amended) at the daily cron "0 2 * * *". -/
theorem c8_granularity_and_emission_witness :
    cronGranularity (some "0 2 * * *") = "daily" ∧
    build_auto_date_filter "created_at" trC8 (some "0 2 * * *")
      = "DATE(" ++ "created_at" ++ ") = " ++ sqt ++
        pyStrOpt (trC8.lookup "yesterday") ++ sqt :=
  have T := c8_granularity_and_emission "created_at" trC8 "0 2 * * *"
    "0" "2" "*" "*" "*" [] (by decide) (by decide) (by decide)
  have hg : cronGranularity (some "0 2 * * *") = "daily" :=
    T.2.2.2.2.1 (by decide) (by decide) rfl (by decide)
  ⟨hg, T.2.2.2.2.2.1 hg⟩

/-- Fixture: a database holding a failed execution for config 1. -/
def dbC1 : Db :=
  { executions := [{ id := "exec-1", configId := 1, status := "failed" }],
    configs := [{ id := 1, reportName := "R", reportQuery := "SELECT 1",
                  datasourceId := 1 }],
    datasources := [{ id := 1, dbType := "mysql" }] }

/-- Fixture: a succeeding environment. -/
def envC1 : Env := { now := 1759773600 }

/-- Fixture: redelivery of the message for the failed execution. -/
def msgC1 : KafkaMessage := { executionId := some "exec-1", configId := 1 }

/-- Counterexample to C1 as stated: the worker's idempotency guard only
covers completed, so re-invoking the pipeline on an execution whose status
is the terminal failed re-runs it and it transitions out of failed (here to
completed). -/
theorem c1_counterexample_failed_rerun :
    (findExec dbC1 "exec-1").map (fun e => e.status) = some "failed" ∧
    ((findExec (process_execution_request envC1 dbC1 msgC1).1 "exec-1").map
      (fun e => e.status)) = some "completed" := by
  refine ⟨by decide, by decide⟩

/-- Claim C1 (amended): re-invoking the worker with an execution id whose
record is already completed is a no-op — the whole database (execution
fields, delivery log rows) is returned unchanged and the handler reports a
skip; so an execution never leaves completed through the worker path. (A
failed execution, by contrast, is re-run, see the counterexample.) -/
theorem c1_completed_skip (env : Env) (db : Db) (msg : KafkaMessage)
    (eid : String) (hid : msg.executionId = some eid)
    (hst : (findExec db eid).map (fun e => e.status) = some "completed") :
    process_execution_request env db msg = (db, .skipped) := by
  unfold process_execution_request
  rw [hid]
  cases hfe : findExec db eid with
  | none =>
    rw [hfe] at hst
    simp at hst
  | some e0 =>
    rw [hfe] at hst
    simp at hst
    simp [hfe, hst]

/-- Fixture: the same database with the execution already completed. -/
def dbC1done : Db :=
  { dbC1 with executions :=
      [({ id := "exec-1", configId := 1, status := "completed" } :
        ReportExecution)] }

/-- Witness for C1 (amended) on the concrete completed execution. -/
theorem c1_completed_skip_witness :
    process_execution_request envC1 dbC1done msgC1 = (dbC1done, .skipped) :=
  c1_completed_skip envC1 dbC1done msgC1 "exec-1" rfl (by decide)

/-- Fixture environment for the C3 failing input. -/
def envC3 : Env := { now := 1759773600 }

/-- Fixture config for C3. -/
def cfgC3 : ReportConfig := { id := 1, reportName := "R" }

/-- Fixture: a mail delivery that will find no active recipients. -/
def delC3mail : ReportDelivery := { id := 7, configId := 1, method := "email" }

/-- Fixture: a file-transfer delivery whose config lacks the required host. -/
def delC3sftp : ReportDelivery :=
  { id := 8, configId := 1, method := "sftp",
    deliveryConfig := some { username := some "u", password := some "p" } }

/-- Fixture database with no recipients at all. -/
def dbC3 : Db := { nextLogId := 41 }

/-- C3 failing input: a delivery with no active recipients (mail) or with a
missing host (file transfer) raises NameError out of the deliverer — the
except handler reads send_start, which the failure path never bound — and
the single log row it created is left pending instead of being returned. -/
theorem c3_delivery_raises_and_leaves_pending :
    (deliver_via_email envC3 dbC3 delC3mail "f.csv" "exec-3" cfgC3 [] none).2
      = .raised nameErrorSendStart ∧
    ((deliver_via_email envC3 dbC3 delC3mail "f.csv" "exec-3" cfgC3 []
        none).1.deliveryLogs.map (fun l => (l.executionId, l.status)))
      = [("exec-3", "pending")] ∧
    (deliver_via_sftp envC3 dbC3 delC3sftp "f.csv" "exec-3" cfgC3 [] none).2
      = .raised nameErrorSendStart ∧
    ((deliver_via_sftp envC3 dbC3 delC3sftp "f.csv" "exec-3" cfgC3 []
        none).1.deliveryLogs.map (fun l => (l.executionId, l.status)))
      = [("exec-3", "pending")] := by
  refine ⟨by decide, by decide, by decide, by decide⟩

theorem firstSuccessAux_none (f : Nat → Bool) (hf : ∀ a, f a = false) :
    ∀ fuel a, firstSuccessAux f fuel a = none := by
  intro fuel
  induction fuel with
  | zero => intro a; rfl
  | succ n ih =>
    intro a
    unfold firstSuccessAux
    rw [hf a]
    simpa using ih (a + 1)

/-- The configuration preconditions under which a deliverer's failure
handler can run (an email delivery has an active recipient; a file-transfer
delivery has host, username and password). -/
def deliverySafe (db : Db) (d : ReportDelivery) : Prop :=
  (d.method = "email" →
    db.recipients.filter (fun r => r.deliveryId == d.id && r.isActive) ≠ []) ∧
  (d.method = "sftp" →
    pyTruthyOptStr (d.deliveryConfig.getD {}).host = true ∧
    pyTruthyOptStr (d.deliveryConfig.getD {}).username = true ∧
    pyTruthyOptStr (d.deliveryConfig.getD {}).password = true)

/-- Every transfer attempt of this delivery's channel fails. -/
def envAllFail (env : Env) (d : ReportDelivery) : Prop :=
  (d.method = "email" → ∀ a, env.mailSendOk d.id a = false) ∧
  (d.method = "sftp" → ∀ a, env.sftpUploadOk d.id a = false)

instance (db : Db) (d : ReportDelivery) : Decidable (deliverySafe db d) :=
  inferInstanceAs (Decidable
    ((d.method = "email" →
       db.recipients.filter
         (fun (r : ReportDeliveryRecipient) =>
           r.deliveryId == d.id && r.isActive) ≠ []) ∧
     (d.method = "sftp" →
       pyTruthyOptStr (d.deliveryConfig.getD {}).host = true ∧
       pyTruthyOptStr (d.deliveryConfig.getD {}).username = true ∧
       pyTruthyOptStr (d.deliveryConfig.getD {}).password = true)))

theorem deliver_via_email_spec (env : Env) (db : Db) (d : ReportDelivery)
    (fp eid : String) (cfg : ReportConfig) (tr : List (String × String))
    (sid : Option Nat)
    (hrec : db.recipients.filter (fun r => r.deliveryId == d.id && r.isActive)
      ≠ []) :
    ∃ log : ReportDeliveryLog,
      deliver_via_email env db d fp eid cfg tr sid
        = ({ db with
              deliveryLogs := db.deliveryLogs ++ [log],
              nextLogId := db.nextLogId + 1 }, .ok db.nextLogId) ∧
      log.deliveryId = d.id ∧ log.executionId = eid ∧
      ((∀ a, env.mailSendOk d.id a = false) →
        log.status = "failed" ∧ log.retryCount = pyOrNat d.maxRetry 3) := by
  have hne : (db.recipients.filter
      (fun r => r.deliveryId == d.id && r.isActive)).isEmpty = false := by
    cases hx : db.recipients.filter (fun r => r.deliveryId == d.id && r.isActive) with
    | nil => exact absurd hx hrec
    | cons a l => rfl
  cases hfs : firstSuccess (env.mailSendOk d.id) (pyOrNat d.maxRetry 3) with
  | some attempt =>
    refine ⟨{ id := db.nextLogId, configId := cfg.id, deliveryId := d.id,
              scheduleId := sid, executionId := eid, status := "success",
              sentAt := some env.now, completedAt := some env.now,
              recipientCount := (db.recipients.filter
                (fun r => r.deliveryId == d.id && r.isActive)).length,
              successCount := (db.recipients.filter
                (fun r => r.deliveryId == d.id && r.isActive)).length,
              failureCount := 0, retryCount := attempt - 1,
              errorMessage := none, fileSizeBytes := some env.fileSize,
              processingTimeMs := some 0 },
            by simp [deliver_via_email, hne, hfs], rfl, rfl, ?_⟩
    intro hall
    rw [firstSuccess, firstSuccessAux_none _ hall] at hfs
    cases hfs
  | none =>
    refine ⟨{ id := db.nextLogId, configId := cfg.id, deliveryId := d.id,
              scheduleId := sid, executionId := eid, status := "failed",
              sentAt := some env.now, completedAt := some env.now,
              recipientCount := (db.recipients.filter
                (fun r => r.deliveryId == d.id && r.isActive)).length,
              successCount := 0,
              failureCount := (db.recipients.filter
                (fun r => r.deliveryId == d.id && r.isActive)).length,
              retryCount := pyOrNat d.maxRetry 3,
              errorMessage := some "mailgun send failed", fileSizeBytes := none,
              processingTimeMs := some 0 },
            by simp [deliver_via_email, hne, hfs], rfl, rfl, ?_⟩
    intro _
    exact ⟨rfl, rfl⟩

theorem deliver_via_sftp_spec (env : Env) (db : Db) (d : ReportDelivery)
    (fp eid : String) (cfg : ReportConfig) (tr : List (String × String))
    (sid : Option Nat)
    (hhost : pyTruthyOptStr (d.deliveryConfig.getD {}).host = true)
    (huser : pyTruthyOptStr (d.deliveryConfig.getD {}).username = true)
    (hpass : pyTruthyOptStr (d.deliveryConfig.getD {}).password = true) :
    ∃ log : ReportDeliveryLog,
      deliver_via_sftp env db d fp eid cfg tr sid
        = ({ db with
              deliveryLogs := db.deliveryLogs ++ [log],
              nextLogId := db.nextLogId + 1 }, .ok db.nextLogId) ∧
      log.deliveryId = d.id ∧ log.executionId = eid ∧
      ((∀ a, env.sftpUploadOk d.id a = false) →
        log.status = "failed" ∧ log.retryCount = pyOrNat d.maxRetry 3) := by
  cases hfs : firstSuccess (env.sftpUploadOk d.id) (pyOrNat d.maxRetry 3) with
  | some attempt =>
    refine ⟨{ id := db.nextLogId, configId := cfg.id, deliveryId := d.id,
              scheduleId := sid, executionId := eid, status := "success",
              sentAt := some env.now, completedAt := some env.now,
              recipientCount := 1, successCount := 1, failureCount := 0,
              retryCount := attempt - 1, errorMessage := none,
              fileSizeBytes := some env.fileSize, processingTimeMs := some 0 },
            by simp [deliver_via_sftp, hhost, huser, hpass, hfs], rfl, rfl, ?_⟩
    intro hall
    rw [firstSuccess, firstSuccessAux_none _ hall] at hfs
    cases hfs
  | none =>
    refine ⟨{ id := db.nextLogId, configId := cfg.id, deliveryId := d.id,
              scheduleId := sid, executionId := eid, status := "failed",
              sentAt := some env.now, completedAt := some env.now,
              recipientCount := 1, successCount := 0, failureCount := 1,
              retryCount := pyOrNat d.maxRetry 3,
              errorMessage := some "sftp upload failed", fileSizeBytes := none,
              processingTimeMs := some 0 },
            by simp [deliver_via_sftp, hhost, huser, hpass, hfs], rfl, rfl, ?_⟩
    intro _
    exact ⟨rfl, rfl⟩

theorem deliverLoop_spec (env : Env) (fp eid : String) (cfg : ReportConfig)
    (tr : List (String × String)) (sid : Option Nat) :
    ∀ (ds : List ReportDelivery) (db : Db) (count : Nat),
      (∀ d ∈ ds, deliverySafe db d) →
      ∃ (newLogs : List ReportDeliveryLog) (n : Nat),
        deliverLoop env fp eid cfg tr sid ds db count
          = ({ db with
                deliveryLogs := db.deliveryLogs ++ newLogs,
                nextLogId := db.nextLogId + newLogs.length }, .ok n) ∧
        (∀ d ∈ ds, (d.method = "email" ∨ d.method = "sftp") →
          envAllFail env d →
          ∃ log ∈ newLogs, log.deliveryId = d.id ∧ log.executionId = eid ∧
            log.status = "failed" ∧ log.retryCount = pyOrNat d.maxRetry 3) := by
  intro ds
  induction ds with
  | nil =>
    intro db count _
    refine ⟨[], count, ?_, ?_⟩
    · show (db, LoopOutcome.ok count) = _
      cases db
      simp [deliverLoop]
    · intro d hd
      simp at hd
  | cons d rest ih =>
    intro db count hsafe
    have hd := hsafe d (List.mem_cons_self d rest)
    have hrest : ∀ d' ∈ rest, deliverySafe db d' :=
      fun d' hd' => hsafe d' (List.mem_cons_of_mem d hd')
    by_cases hmail : d.method = "email"
    · obtain ⟨log, heq, hdid, heid, hfail⟩ :=
        deliver_via_email_spec env db d fp eid cfg tr sid (hd.1 hmail)
      obtain ⟨newLogs', n, heq', hlogs'⟩ :=
        ih { db with
              deliveryLogs := db.deliveryLogs ++ [log],
              nextLogId := db.nextLogId + 1 } (count + 1)
          (fun d' hd' => hrest d' hd')
      refine ⟨log :: newLogs', n, ?_, ?_⟩
      · unfold deliverLoop
        rw [show (d.method == "email") = true by simp [hmail]]
        simp only [if_true]
        rw [heq]
        dsimp only
        rw [heq']
        cases db
        simp [List.append_assoc, Nat.add_comm, Nat.add_assoc, Nat.add_left_comm]
      · intro d' hd' hm hall
        rcases List.mem_cons.mp hd' with heqd | hmem
        · subst heqd
          obtain ⟨hst, hrc⟩ := hfail (hall.1 hmail)
          exact ⟨log, List.mem_cons_self _ _, hdid, heid, hst, hrc⟩
        · obtain ⟨log', hlmem, h1, h2, h3, h4⟩ := hlogs' d' hmem hm hall
          exact ⟨log', List.mem_cons_of_mem _ hlmem, h1, h2, h3, h4⟩
    · by_cases hsftp : d.method = "sftp"
      · obtain ⟨hhost, huser, hpass⟩ := hd.2 hsftp
        obtain ⟨log, heq, hdid, heid, hfail⟩ :=
          deliver_via_sftp_spec env db d fp eid cfg tr sid hhost huser hpass
        obtain ⟨newLogs', n, heq', hlogs'⟩ :=
          ih { db with
                deliveryLogs := db.deliveryLogs ++ [log],
                nextLogId := db.nextLogId + 1 } (count + 1)
            (fun d' hd' => hrest d' hd')
        refine ⟨log :: newLogs', n, ?_, ?_⟩
        · unfold deliverLoop
          rw [show (d.method == "email") = false by simp [hmail]]
          rw [show (d.method == "sftp") = true by simp [hsftp]]
          simp only [if_false, if_true, Bool.false_eq_true]
          rw [heq]
          dsimp only
          rw [heq']
          cases db
          simp [List.append_assoc, Nat.add_comm, Nat.add_assoc, Nat.add_left_comm]
        · intro d' hd' hm hall
          rcases List.mem_cons.mp hd' with heqd | hmem
          · subst heqd
            obtain ⟨hst, hrc⟩ := hfail (hall.2 hsftp)
            exact ⟨log, List.mem_cons_self _ _, hdid, heid, hst, hrc⟩
          · obtain ⟨log', hlmem, h1, h2, h3, h4⟩ := hlogs' d' hmem hm hall
            exact ⟨log', List.mem_cons_of_mem _ hlmem, h1, h2, h3, h4⟩
      · obtain ⟨newLogs', n, heq', hlogs'⟩ := ih db count hrest
        refine ⟨newLogs', n, ?_, ?_⟩
        · unfold deliverLoop
          rw [show (d.method == "email") = false by simp [hmail]]
          rw [show (d.method == "sftp") = false by simp [hsftp]]
          simp only [if_false, Bool.false_eq_true]
          exact heq'
        · intro d' hd' hm hall
          rcases List.mem_cons.mp hd' with heqd | hmem
          · subst heqd
            rcases hm with hm | hm
            · exact absurd hm hmail
            · exact absurd hm hsftp
          · exact hlogs' d' hmem hm hall

theorem find?_update_id (l : List ReportExecution) (i : String)
    (f : ReportExecution → ReportExecution) (hf : ∀ e, (f e).id = e.id) :
    (l.map (fun e => if e.id == i then f e else e)).find? (fun e => e.id == i)
      = (l.find? (fun e => e.id == i)).map f := by
  induction l with
  | nil => rfl
  | cons a l ih =>
    by_cases ha : (a.id == i) = true
    · have ha' : a.id = i := by simpa using ha
      simp [List.find?_cons, ha', hf]
    · have hb : (a.id == i) = false := by
        rw [Bool.eq_false_iff]
        exact ha
      rw [List.map_cons, if_neg ha]
      rw [List.find?_cons, List.find?_cons]
      simp only [hb]
      exact ih

theorem findExec_updateExec (db : Db) (i : String)
    (f : ReportExecution → ReportExecution) (hf : ∀ e, (f e).id = e.id) :
    findExec (updateExec db i f) i = (findExec db i).map f := by
  unfold findExec updateExec
  exact find?_update_id db.executions i f hf

theorem execDb1_configs (db : Db) (cid : Nat) (sid : Option Nat)
    (eb eid : String) (t : Nat) :
    (execDb1 db cid sid eb eid t).configs = db.configs := by
  unfold execDb1
  cases findExec db eid <;> rfl

theorem execDb1_datasources (db : Db) (cid : Nat) (sid : Option Nat)
    (eb eid : String) (t : Nat) :
    (execDb1 db cid sid eb eid t).datasources = db.datasources := by
  unfold execDb1
  cases findExec db eid <;> rfl

theorem execDb1_schedules (db : Db) (cid : Nat) (sid : Option Nat)
    (eb eid : String) (t : Nat) :
    (execDb1 db cid sid eb eid t).schedules = db.schedules := by
  unfold execDb1
  cases findExec db eid <;> rfl

theorem execDb1_deliveries (db : Db) (cid : Nat) (sid : Option Nat)
    (eb eid : String) (t : Nat) :
    (execDb1 db cid sid eb eid t).deliveries = db.deliveries := by
  unfold execDb1
  cases findExec db eid <;> rfl

theorem execDb1_recipients (db : Db) (cid : Nat) (sid : Option Nat)
    (eb eid : String) (t : Nat) :
    (execDb1 db cid sid eb eid t).recipients = db.recipients := by
  unfold execDb1
  cases findExec db eid <;> rfl

theorem execDb1_deliveryLogs (db : Db) (cid : Nat) (sid : Option Nat)
    (eb eid : String) (t : Nat) :
    (execDb1 db cid sid eb eid t).deliveryLogs = db.deliveryLogs := by
  unfold execDb1
  cases findExec db eid <;> rfl

theorem activeDeliveries_execDb1 (db : Db) (cid' cid : Nat)
    (sid : Option Nat) (eb eid : String) (t : Nat) :
    activeDeliveries (execDb1 db cid' sid eb eid t) cid
      = activeDeliveries db cid := by
  unfold activeDeliveries
  rw [execDb1_deliveries]

theorem findExec_execDb1 (db : Db) (cid : Nat) (sid : Option Nat)
    (eb eid : String) (t : Nat) :
    ∃ e, findExec (execDb1 db cid sid eb eid t) eid = some e := by
  unfold execDb1
  cases hfe : findExec db eid with
  | some e0 =>
    refine ⟨{ e0 with status := "running", startedAt := some t }, ?_⟩
    dsimp only
    rw [findExec_updateExec db eid
      (fun e => { e with status := "running", startedAt := some t })
      (fun e => rfl), hfe]
    rfl
  | none =>
    refine ⟨({ id := eid, configId := cid, scheduleId := sid,
               status := "running", startedAt := some t,
               executedBy := eb } : ReportExecution), ?_⟩
    show (db.executions ++ _).find? _ = _
    rw [List.find?_append]
    unfold findExec at hfe
    rw [hfe]
    simp

theorem deliverySafe_of_recipients_eq (db db' : Db) (d : ReportDelivery)
    (h : db'.recipients = db.recipients) (hs : deliverySafe db d) :
    deliverySafe db' d := by
  unfold deliverySafe at hs ⊢
  rw [h]
  exact hs

theorem findExec_execDb3_chain (X : Db) (eid : String) (cfg : ReportConfig)
    (fq : String) (rows : Nat) (op : String) (fs : Nat)
    (e : ReportExecution) (h : findExec X eid = some e) :
    ∃ e', findExec (execDb3 (execDb2 X eid cfg fq) eid rows op fs) eid
      = some e' := by
  unfold execDb3 execDb2
  rw [findExec_updateExec]
  · rw [findExec_updateExec]
    · rw [h]
      exact ⟨_, rfl⟩
    · intro x
      rfl
  · intro x
    rfl

theorem findExec_execComplete_status (X : Db) (eid : String) (now : Nat)
    (e : ReportExecution) (h : findExec X eid = some e) :
    (findExec (execComplete X eid now) eid).map (fun x => x.status)
      = some "completed" := by
  unfold execComplete
  rw [findExec_updateExec]
  · rw [h]
    rfl
  · intro x
    rfl

/-- Claim C2 (amended): when the query and render steps succeed and every
configured channel can reach its retry loop, the execution completes even if
channels fail; a channel failing on every one of its attempts leaves a
delivery log row with status failed and retry_count equal to max_retry (the
code stores max_retry itself, not max_retry - 1, on exhaustion). -/
theorem c2_exhausted_delivery_completes (env : Env) (db : Db)
    (configId : Nat) (eb eid : String) (cfg : ReportConfig)
    (ds : ReportDatasource) (rows : Nat)
    (hc : db.configs.find? (fun c => c.id == configId && c.isActive) = some cfg)
    (hd : db.datasources.find?
      (fun x => x.id == cfg.datasourceId && x.isActive) = some ds)
    (hmysql : ds.dbType = "mysql")
    (hq : env.queryResult = .ok rows)
    (hr : env.renderResult = .ok ())
    (hsafe : ∀ d ∈ activeDeliveries db configId, deliverySafe db d) :
    (∃ r : ExecResult,
      (execute_report env db configId none eb (some eid)).2 = .ok r ∧
      r.status = "completed") ∧
    ((findExec (execute_report env db configId none eb (some eid)).1 eid).map
      (fun e => e.status)) = some "completed" ∧
    (∀ d ∈ activeDeliveries db configId,
      (d.method = "email" ∨ d.method = "sftp") → envAllFail env d →
      ∃ log ∈ (execute_report env db configId none eb (some eid)).1.deliveryLogs,
        log.deliveryId = d.id ∧ log.executionId = eid ∧
        log.status = "failed" ∧ log.retryCount = pyOrNat d.maxRetry 3) := by
  have hbt : (ds.dbType == "mysql") = true := by simp [hmysql]
  obtain ⟨e1, he1⟩ := findExec_execDb1 db configId none eb eid env.now
  obtain ⟨e3, he3⟩ := findExec_execDb3_chain
    (execDb1 db configId none eb eid env.now) eid cfg
    (executorFinalQuery cfg none (executorTimeRange cfg none env.now)) rows
    (executorOutputPath cfg (executorTimeRange cfg none env.now) env.now eid)
    env.fileSize e1 he1
  have hsafe3 : ∀ d ∈ activeDeliveries db configId,
      deliverySafe (execDb3
        (execDb2 (execDb1 db configId none eb eid env.now) eid cfg
          (executorFinalQuery cfg none (executorTimeRange cfg none env.now)))
        eid rows
        (executorOutputPath cfg (executorTimeRange cfg none env.now) env.now eid)
        env.fileSize) d := by
    intro d hd'
    refine deliverySafe_of_recipients_eq db _ d ?_ (hsafe d hd')
    show (execDb1 db configId none eb eid env.now).recipients = db.recipients
    exact execDb1_recipients db configId none eb eid env.now
  obtain ⟨newLogs, n, heqloop, hlogs⟩ :=
    deliverLoop_spec env
      (executorOutputPath cfg (executorTimeRange cfg none env.now) env.now eid)
      eid cfg (executorTimeRange cfg none env.now) none
      (activeDeliveries db configId)
      (execDb3
        (execDb2 (execDb1 db configId none eb eid env.now) eid cfg
          (executorFinalQuery cfg none (executorTimeRange cfg none env.now)))
        eid rows
        (executorOutputPath cfg (executorTimeRange cfg none env.now) env.now eid)
        env.fileSize)
      0 hsafe3
  unfold execute_report
  simp only [Option.getD_some]
  rw [execDb1_configs db configId none eb eid env.now, hc]
  dsimp only
  rw [execDb1_datasources db configId none eb eid env.now, hd]
  dsimp only
  simp only [Option.none_bind]
  simp only [hbt, if_true]
  rw [hq]
  dsimp only
  rw [hr]
  dsimp only
  rw [activeDeliveries_execDb1 db configId configId none eb eid env.now]
  rw [heqloop]
  dsimp only
  refine ⟨⟨_, rfl, rfl⟩, ?_, ?_⟩
  · exact findExec_execComplete_status _ eid env.now e3 he3
  · intro d hd' hm hall
    obtain ⟨log, hmem, h1', h2', h3', h4'⟩ := hlogs d hd' hm hall
    refine ⟨log, ?_, h1', h2', h3', h4'⟩
    show log ∈ (execDb1 db configId none eb eid env.now).deliveryLogs ++ newLogs
    exact List.mem_append_right _ hmem

/-- Fixture config for C2. -/
def cfgC2 : ReportConfig :=
  { id := 1, reportName := "R", reportQuery := "SELECT 1", datasourceId := 1 }

/-- Fixture datasource for C2. -/
def dsC2 : ReportDatasource := { id := 1, dbType := "mysql" }

/-- Fixture email delivery with a retry budget of 2. -/
def delC2 : ReportDelivery :=
  { id := 9, configId := 1, method := "email", maxRetry := some 2 }

/-- Fixture database for C2. -/
def dbC2 : Db :=
  { configs := [cfgC2], datasources := [dsC2], deliveries := [delC2],
    recipients := [{ id := 1, deliveryId := 9, recipientValue := "a@b" }] }

/-- Fixture environment for C2: every mail attempt fails. -/
def envC2 : Env := { now := 1759773600, mailSendOk := fun _ _ => false }

/-- Counterexample to C2 as stated: with max_retry = 2 and every attempt
failing, the execution completes and the delivery log ends failed, but its
retry_count is 2 (max_retry itself), not max_retry - 1 = 1. -/
theorem c2_counterexample_retry_count :
    ((execute_report envC2 dbC2 1 none "u" (some "exec-2")).1.deliveryLogs.map
      (fun l => (l.status, l.retryCount))) = [("failed", 2)] ∧
    ((execute_report envC2 dbC2 1 none "u" (some "exec-2")).1.deliveryLogs.map
      (fun l => (l.status, l.retryCount))) ≠ [("failed", 1)] ∧
    ((execute_report envC2 dbC2 1 none "u" (some "exec-2")).2.toOption.map
      (fun r => r.status)) = some "completed" := by
  refine ⟨by decide, by decide, by decide⟩

/-- Witness for C2 (amended) on the concrete all-failing mail delivery. -/
theorem c2_exhausted_delivery_completes_witness :
    (∃ r : ExecResult,
      (execute_report envC2 dbC2 1 none "u" (some "exec-2")).2 = .ok r ∧
      r.status = "completed") ∧
    ((findExec (execute_report envC2 dbC2 1 none "u" (some "exec-2")).1
        "exec-2").map (fun e => e.status)) = some "completed" ∧
    (∀ d ∈ activeDeliveries dbC2 1,
      (d.method = "email" ∨ d.method = "sftp") → envAllFail envC2 d →
      ∃ log ∈ (execute_report envC2 dbC2 1 none "u"
          (some "exec-2")).1.deliveryLogs,
        log.deliveryId = d.id ∧ log.executionId = "exec-2" ∧
        log.status = "failed" ∧ log.retryCount = pyOrNat d.maxRetry 3) :=
  c2_exhausted_delivery_completes envC2 dbC2 1 "u" "exec-2" cfgC2 dsC2 0
    rfl rfl rfl rfl rfl (by decide)

theorem deliver_via_email_schedules (env : Env) (db : Db)
    (d : ReportDelivery) (fp eid : String) (cfg : ReportConfig)
    (tr : List (String × String)) (sid : Option Nat) :
    (deliver_via_email env db d fp eid cfg tr sid).1.schedules
      = db.schedules := by
  unfold deliver_via_email
  dsimp only
  split
  · rfl
  · split <;> rfl

theorem deliver_via_sftp_schedules (env : Env) (db : Db)
    (d : ReportDelivery) (fp eid : String) (cfg : ReportConfig)
    (tr : List (String × String)) (sid : Option Nat) :
    (deliver_via_sftp env db d fp eid cfg tr sid).1.schedules
      = db.schedules := by
  unfold deliver_via_sftp
  dsimp only
  split
  · rfl
  · split <;> rfl

theorem deliverLoop_schedules (env : Env) (fp eid : String)
    (cfg : ReportConfig) (tr : List (String × String)) (sid : Option Nat) :
    ∀ (ds : List ReportDelivery) (db : Db) (count : Nat),
      (deliverLoop env fp eid cfg tr sid ds db count).1.schedules
        = db.schedules := by
  intro ds
  induction ds with
  | nil => intro db count; rfl
  | cons d rest ih =>
    intro db count
    unfold deliverLoop
    split
    · cases hde : deliver_via_email env db d fp eid cfg tr sid with
      | mk db' out =>
        have hs' : db'.schedules = db.schedules := by
          have h := deliver_via_email_schedules env db d fp eid cfg tr sid
          rw [hde] at h
          exact h
        cases out with
        | ok logId =>
          dsimp only
          rw [ih db' (count + 1), hs']
        | raised e =>
          dsimp only
          exact hs'
    · split
      · cases hde : deliver_via_sftp env db d fp eid cfg tr sid with
        | mk db' out =>
          have hs' : db'.schedules = db.schedules := by
            have h := deliver_via_sftp_schedules env db d fp eid cfg tr sid
            rw [hde] at h
            exact h
          cases out with
          | ok logId =>
            dsimp only
            rw [ih db' (count + 1), hs']
          | raised e =>
            dsimp only
            exact hs'
      · exact ih db count

theorem execAdvanceSchedule_schedules (X : Db)
    (sch : Option ReportSchedule) (t : Nat) :
    (execAdvanceSchedule X sch t).schedules
      = (match sch with
         | some s => X.schedules.map (fun x =>
             if x.id == s.id then { x with lastRunAt := some t } else x)
         | none => X.schedules) := by
  cases sch <;> rfl

theorem execute_report_schedules (env : Env) (db : Db) (configId : Nat)
    (scheduleId : Option Nat) (eb : String) (eidOpt : Option String) :
    (execute_report env db configId scheduleId eb eidOpt).1.schedules
      = (match (execute_report env db configId scheduleId eb eidOpt).2 with
         | .ok _ =>
           (match scheduleId.bind
               (fun sid => db.schedules.find? (fun s => s.id == sid)) with
            | some s => db.schedules.map (fun x =>
                if x.id == s.id then { x with lastRunAt := some env.now }
                else x)
            | none => db.schedules)
         | .error _ => db.schedules) := by
  unfold execute_report
  simp only [execDb1_schedules]
  split
  · simp [failExec, updateExec, execDb1_schedules]
  · split
    · simp [failExec, updateExec, execDb1_schedules]
    · split
      · simp [failExec, updateExec, execDb2, execDb1_schedules]
      · split
        · simp [failExec, updateExec, execDb2, execDb1_schedules]
        · split
          · rename_i db4 err heq
            show db4.schedules = db.schedules
            have h2 := congrArg (fun p : Db × LoopOutcome => p.1.schedules) heq
            dsimp only at h2
            rw [deliverLoop_schedules] at h2
            rw [← h2]
            show (execDb1 db configId scheduleId eb
              (eidOpt.getD env.freshId) env.now).schedules = db.schedules
            exact execDb1_schedules db configId scheduleId eb
              (eidOpt.getD env.freshId) env.now
          · rename_i db4 cnt heq
            have h2 := congrArg (fun p : Db × LoopOutcome => p.1.schedules) heq
            dsimp only at h2
            rw [deliverLoop_schedules] at h2
            have hdb4 : db4.schedules = db.schedules := by
              rw [← h2]
              show (execDb1 db configId scheduleId eb
                (eidOpt.getD env.freshId) env.now).schedules = db.schedules
              exact execDb1_schedules db configId scheduleId eb
                (eidOpt.getD env.freshId) env.now
            rw [execAdvanceSchedule_schedules]
            dsimp only
            cases scheduleId.bind
                (fun sid => db.schedules.find? (fun s => s.id == sid)) with
            | none =>
              show db4.schedules = db.schedules
              exact hdb4
            | some s =>
              show db4.schedules.map _ = db.schedules.map _
              rw [hdb4]

/-- Claim C9: for an execution given a schedule, success advances exactly
that schedule's last_run_at to the execution's logical start time (all other
schedule rows and fields unchanged, as the map shows), failure leaves the
schedules untouched, and the next invocation's window then starts exactly at
that start time. -/
theorem c9_schedule_last_run (env : Env) (db : Db) (configId sid : Nat)
    (eb : String) (eidOpt : Option String) (s : ReportSchedule)
    (hs : db.schedules.find? (fun x => x.id == sid) = some s) :
    ((∃ r, (execute_report env db configId (some sid) eb eidOpt).2 = .ok r) →
      (execute_report env db configId (some sid) eb eidOpt).1.schedules
        = db.schedules.map (fun x =>
            if x.id == s.id then { x with lastRunAt := some env.now }
            else x)) ∧
    ((∃ m, (execute_report env db configId (some sid) eb eidOpt).2
        = .error m) →
      (execute_report env db configId (some sid) eb eidOpt).1.schedules
        = db.schedules) ∧
    (∀ t', (calculate_time_range (some { s with lastRunAt := some env.now })
        t').lookup "start_datetime" = some (fmtDateTime env.now)) := by
  have hb : ((some sid).bind
      (fun i => db.schedules.find? (fun x => x.id == i))) = some s := by
    simpa using hs
  refine ⟨?_, ?_, ?_⟩
  · rintro ⟨r, hok⟩
    rw [execute_report_schedules, hok]
    dsimp only
    rw [hb]
  · rintro ⟨m, herr⟩
    rw [execute_report_schedules, herr]
  · intro t'
    rw [lookup_tr_start_datetime,
      computeWindow_last_run ({ s with lastRunAt := some env.now }) t'
        env.now rfl]

/-- Fixture schedule for C9. -/
def schedC9 : ReportSchedule :=
  { id := 5, configId := 1, cronExpression := some "0 2 * * *" }

/-- Fixture database for C9 (config, datasource and the schedule). -/
def dbC9 : Db :=
  { configs := [{ id := 1, reportName := "R", reportQuery := "SELECT 1",
                  datasourceId := 1 }],
    datasources := [{ id := 1, dbType := "mysql" }],
    schedules := [schedC9] }

/-- Fixture environment for C9. -/
def envC9 : Env := { now := 1759773600 }

/-- Witness for C9 on the concrete schedule. -/
theorem c9_schedule_last_run_witness :
    ((∃ r, (execute_report envC9 dbC9 1 (some 5) "u" (some "exec-9")).2
        = .ok r) →
      (execute_report envC9 dbC9 1 (some 5) "u" (some "exec-9")).1.schedules
        = dbC9.schedules.map (fun x =>
            if x.id == schedC9.id
            then { x with lastRunAt := some envC9.now } else x)) ∧
    ((∃ m, (execute_report envC9 dbC9 1 (some 5) "u" (some "exec-9")).2
        = .error m) →
      (execute_report envC9 dbC9 1 (some 5) "u" (some "exec-9")).1.schedules
        = dbC9.schedules) ∧
    (∀ t', (calculate_time_range
        (some { schedC9 with lastRunAt := some envC9.now }) t').lookup
        "start_datetime" = some (fmtDateTime envC9.now)) :=
  c9_schedule_last_run envC9 dbC9 1 5 "u" (some "exec-9") schedC9 rfl
